import Mathlib

/-!
# Reconcilers for `EventBinding` and `TektonListener`

A shallow embedding of the two `Reconcile` functions of
`pkg/reconciler/v1alpha1/eventbinding/eventbinding.go` and
`pkg/reconciler/v1alpha1/tektonlistener/tektonlistener.go`, of the generated
lister `pkg/client/listers/pipeline/v1alpha1/eventbinding.go`, and of the
capabilities they consume (informer cache, live client).

Stateful code is written in explicit state-passing style over `World`: the
informer caches, the contents of the authoritative store, and the log of every
call made on the live client.  A Go call returning `(result, err)` becomes a
pair `α × Option Err`; as in the generated typed client, `result` is the zero
value of its type whenever `err` is not nil.
-/

set_option autoImplicit false

namespace Pipeline

/-! ## Errors -/

/-- Errors returned by the cache and by the live client.  `notFound` and
`alreadyExists` are the API status errors with those reasons; every other error
(transport, server, validation) is `other`. -/
inductive Err where
  | notFound (resource name : String)
  | alreadyExists (resource name : String)
  | other (msg : String)
  deriving DecidableEq, Repr, Inhabited

/-- The test `errors.IsNotFound(err)`: an error is present and its reason is NotFound. -/
def IsNotFound : Option Err → Bool
  | some (Err.notFound _ _) => true
  | _ => false

/-- How a call of `Reconcile` ends: it returns its `error` result (`none` is
nil), or the goroutine panics on a nil pointer dereference. -/
inductive Outcome where
  | returned (err : Option Err)
  | panicked
  deriving DecidableEq, Repr, Inhabited

/-! ## API types

The Go declarations of package `v1alpha1` (`pkg/apis/pipeline/v1alpha1`) and of
the Kubernetes `apps/v1` and `core/v1` types are not part of the sources at hand.
The structures below carry the fields that the two reconcilers read or write.
A Go `string` is a `String`, a pointer to a struct is an `Option`, a
`map[string]string` is an association list.  A slice that `reflect.DeepEqual`
compares with a slice of a fetched listener is a `Slice`, which keeps the nil
slice apart from the empty one, as `DeepEqual` does.  The other slices are `List`s:
they are only ranged over or passed on, or, in the workload, they are the
non-empty literals of `set.Spec`, to which a fetched slice is deeply equal exactly
when it has the same elements. -/

/-- A Go slice value: the nil slice, or a non-nil slice with its elements. -/
inductive Slice (α : Type) where
  | nil
  | of (elems : List α)
  deriving DecidableEq, Repr, Inhabited

/-- The elements of a slice, as `range` and `len` see them. -/
def Slice.toList {α : Type} : Slice α → List α
  | Slice.nil => []
  | Slice.of elems => elems

/-- The Go `append(s, x)`: a non-nil slice with the elements of `s` and then `x`. -/
def Slice.append {α : Type} (s : Slice α) (x : α) : Slice α :=
  Slice.of (s.toList ++ [x])

/-- Modelled from the spec: `v1alpha1.PipelineRef`, the name of a pipeline definition. -/
structure PipelineRef where
  name : String := ""
  apiVersion : String := ""
  deriving DecidableEq, Repr, Inhabited

/-- Modelled from the spec: the `EventRef` of a binding, an event-type and
event-name pair. -/
structure EventRef where
  eventName : String := ""
  eventType : String := ""
  deriving DecidableEq, Repr, Inhabited

/-- Modelled from the spec: `v1alpha1.Param`, a key-value execution parameter. -/
structure Param where
  name : String := ""
  value : String := ""
  deriving DecidableEq, Repr, Inhabited

/-- Modelled from the spec: `v1alpha1.PipelineResourceSpec`; `type` is the
`PipelineResourceType` string. -/
structure PipelineResourceSpec where
  type : String := ""
  params : List Param := []
  deriving DecidableEq, Repr, Inhabited

/-- Modelled from the spec: `v1alpha1.PipelineResource`, a named, typed resource
declaration (`ns` is `ObjectMeta.Namespace`). -/
structure PipelineResource where
  name : String := ""
  ns : String := ""
  spec : PipelineResourceSpec := {}
  deriving DecidableEq, Repr, Inhabited

/-- Modelled from the spec: `v1alpha1.PipelineResourceRef`. -/
structure PipelineResourceRef where
  name : String := ""
  apiVersion : String := ""
  deriving DecidableEq, Repr, Inhabited

/-- Modelled from the spec: `v1alpha1.PipelineResourceBinding`. -/
structure PipelineResourceBinding where
  name : String := ""
  resourceRef : PipelineResourceRef := {}
  deriving DecidableEq, Repr, Inhabited

/-- Modelled from the spec: `v1alpha1.PipelineTrigger`, the trigger identity. -/
structure PipelineTrigger where
  name : String := ""
  type : String := ""
  deriving DecidableEq, Repr, Inhabited

/-- Modelled from the spec: `v1alpha1.PipelineRunSpec` (pipeline reference,
trigger identity, resource bindings, params, service account). -/
structure PipelineRunSpec where
  pipelineRef : PipelineRef := {}
  trigger : PipelineTrigger := {}
  resources : Slice PipelineResourceBinding := Slice.nil
  params : Slice Param := Slice.nil
  serviceAccount : String := ""
  deriving DecidableEq, Repr, Inhabited

/-- Modelled from the spec: `v1alpha1.EventBindingSpec`. -/
structure EventBindingSpec where
  pipelineRef : PipelineRef := {}
  eventRef : EventRef := {}
  resourceTemplates : List PipelineResource := []
  params : Slice Param := Slice.nil
  serviceAccount : String := ""
  deriving DecidableEq, Repr, Inhabited

/-- Modelled from the spec: `v1alpha1.EventBindingStatus`. -/
structure EventBindingStatus where
  listenerName : String := ""
  ns : String := ""
  deriving DecidableEq, Repr, Inhabited

/-- Modelled from the spec: `v1alpha1.EventBinding`. -/
structure EventBinding where
  name : String := ""
  ns : String := ""
  spec : EventBindingSpec := {}
  status : EventBindingStatus := {}
  deriving DecidableEq, Repr, Inhabited

/-- Modelled from the spec: `v1alpha1.TektonListenerSpec`.  `pipelineRunSpec` is
the pointer field `*PipelineRunSpec` (`none` is nil); `port` is the integer that
`string(pl.Spec.Port)` converts. -/
structure TektonListenerSpec where
  pipelineRef : PipelineRef := {}
  eventType : String := ""
  event : String := ""
  ns : String := ""
  port : Int := 0
  pipelineRunSpec : Option PipelineRunSpec := none
  deriving DecidableEq, Repr, Inhabited

/-- Modelled from the spec: `v1alpha1.TektonListenerStatus`. -/
structure TektonListenerStatus where
  ns : String := ""
  statefulSetName : String := ""
  deriving DecidableEq, Repr, Inhabited

/-- Modelled from the spec: `v1alpha1.TektonListener`. -/
structure TektonListener where
  name : String := ""
  ns : String := ""
  spec : TektonListenerSpec := {}
  status : TektonListenerStatus := {}
  deriving DecidableEq, Repr, Inhabited

/-- Modelled from the spec: `v1alpha1.Pipeline`, of which only the identity is read. -/
structure PipelineDef where
  name : String := ""
  ns : String := ""
  deriving DecidableEq, Repr, Inhabited

/-- The `corev1.EnvVar` fields set by the listener reconciler. -/
structure EnvVar where
  name : String := ""
  value : String := ""
  deriving DecidableEq, Repr, Inhabited

/-- The `corev1.ContainerPort` fields set by the listener reconciler. -/
structure ContainerPort where
  name : String := ""
  containerPort : Int := 0
  hostPort : Int := 0
  deriving DecidableEq, Repr, Inhabited

/-- The `corev1.Container` fields set by the listener reconciler. -/
structure Container where
  name : String := ""
  image : String := ""
  env : List EnvVar := []
  ports : List ContainerPort := []
  deriving DecidableEq, Repr, Inhabited

/-- The `corev1.PodSpec` fields set by the listener reconciler. -/
structure PodSpec where
  serviceAccountName : String := ""
  containers : List Container := []
  deriving DecidableEq, Repr, Inhabited

/-- The `corev1.PodTemplateSpec`: the labels of its `ObjectMeta` and the pod spec. -/
structure PodTemplateSpec where
  labels : List (String × String) := []
  spec : PodSpec := {}
  deriving DecidableEq, Repr, Inhabited

/-- The `appsv1.StatefulSetSpec` fields set by the listener reconciler;
`selector` is the pointer `*metav1.LabelSelector`, given by its `MatchLabels`. -/
structure StatefulSetSpec where
  selector : Option (List (String × String)) := none
  template : PodTemplateSpec := {}
  deriving DecidableEq, Repr, Inhabited

/-- The `appsv1.StatefulSet`, the workload of a listener. -/
structure StatefulSet where
  name : String := ""
  ns : String := ""
  spec : StatefulSetSpec := {}
  deriving DecidableEq, Repr, Inhabited

/-! ## Informer cache and listers -/

/-- The `cache.Indexer` behind a lister: the cached objects filed under their
`"<namespace>/<name>"` key, and the error (if any) that a lookup of a key
reports. -/
structure Indexer (α : Type) where
  items : List (String × α) := []
  failure : String → Option Err := fun _ => none

/-- First entry filed under `key`. -/
def lookupKey {α : Type} (key : String) : List (String × α) → Option α
  | [] => none
  | (k, v) :: rest => if k = key then some v else lookupKey key rest

/-- The call `indexer.GetByKey(key)`, returning `(item, exists, err)`: an error,
or the entry when one exists. -/
def Indexer.GetByKey {α : Type} (indexer : Indexer α) (key : String) : Except Err (Option α) :=
  match indexer.failure key with
  | some e => Except.error e
  | none => Except.ok (lookupKey key indexer.items)

/-- Write through the pointer that `GetByKey` handed out: the first entry filed
under `key` is replaced by `f` of it. -/
def modifyKey {α : Type} (key : String) (f : α → α) : List (String × α) → List (String × α)
  | [] => []
  | (k, v) :: rest => if k = key then (k, f v) :: rest else (k, v) :: modifyKey key f rest

/-- The method `eventBindingNamespaceLister.Get` of
`pkg/client/listers/pipeline/v1alpha1/eventbinding.go`. -/
def eventBindingNamespaceLister.Get (indexer : Indexer EventBinding) (ns : String)
    (name : String) : Except Err EventBinding :=
  match indexer.GetByKey (ns ++ "/" ++ name) with
  | Except.error err => Except.error err
  | Except.ok none => Except.error (Err.notFound "eventbinding" name)
  | Except.ok (some obj) => Except.ok obj

/-- The generated `tektonListenerNamespaceLister.Get`, the same code as
`eventBindingNamespaceLister.Get` for the resource `tektonlistener`. -/
def tektonListenerNamespaceLister.Get (indexer : Indexer TektonListener) (ns : String)
    (name : String) : Except Err TektonListener :=
  match indexer.GetByKey (ns ++ "/" ++ name) with
  | Except.error err => Except.error err
  | Except.ok none => Except.error (Err.notFound "tektonlistener" name)
  | Except.ok (some obj) => Except.ok obj

/-- The generated `pipelineNamespaceLister.Get`, the same code as
`eventBindingNamespaceLister.Get` for the resource `pipeline`. -/
def pipelineNamespaceLister.Get (indexer : Indexer PipelineDef) (ns : String)
    (name : String) : Except Err PipelineDef :=
  match indexer.GetByKey (ns ++ "/" ++ name) with
  | Except.error err => Except.error err
  | Except.ok none => Except.error (Err.notFound "pipeline" name)
  | Except.ok (some obj) => Except.ok obj

/-- The pieces of a key between its `/` separators (`strings.Split(key, "/")`). -/
def splitSlash : List Char → List (List Char)
  | [] => [[]]
  | c :: cs =>
    if c = '/' then [] :: splitSlash cs
    else
      match splitSlash cs with
      | [] => [[c]]
      | p :: ps => (c :: p) :: ps

/-- The function `cache.SplitMetaNamespaceKey`: a key without `/` is a name in the
empty namespace, a key with one `/` is `namespace/name`, any other key is
malformed. -/
def SplitMetaNamespaceKey (key : String) : Except Err (String × String) :=
  match splitSlash key.toList with
  | [name] => Except.ok ("", String.mk name)
  | [ns, name] => Except.ok (String.mk ns, String.mk name)
  | _ => Except.error (Err.other ("unexpected key format: " ++ key))

/-! ## Live client -/

/-- A call on the live client: the verb, the resource, the namespace the typed
client was opened for, and the name or the object passed. -/
inductive Call where
  | getPipelineResource (ns name : String)
  | createPipelineResource (ns : String) (obj : PipelineResource)
  | getTektonListener (ns name : String)
  | createTektonListener (ns : String) (obj : TektonListener)
  | updateTektonListener (ns : String) (obj : TektonListener)
  | getStatefulSet (ns name : String)
  | createStatefulSet (ns : String) (obj : StatefulSet)
  | updateStatefulSet (ns : String) (obj : StatefulSet)
  deriving DecidableEq, Repr, Inhabited

/-- Objects of the store have a namespace and a name. -/
class Named (α : Type) where
  name : α → String
  ns : α → String

instance : Named PipelineResource := ⟨PipelineResource.name, PipelineResource.ns⟩
instance : Named TektonListener := ⟨TektonListener.name, TektonListener.ns⟩
instance : Named StatefulSet := ⟨StatefulSet.name, StatefulSet.ns⟩

/-- The object of the store with this namespace and name. -/
def lookup {α : Type} [Named α] (ns name : String) : List α → Option α
  | [] => none
  | o :: rest => if Named.ns o = ns ∧ Named.name o = name then some o else lookup ns name rest

/-- Replace the object of the store with this namespace and name. -/
def replace {α : Type} [Named α] (ns name : String) (obj : α) : List α → List α
  | [] => []
  | o :: rest =>
    if Named.ns o = ns ∧ Named.name o = name then obj :: rest else o :: replace ns name obj rest

/-- Modelled from the spec: `Get(namespace, name) -> (object, notFoundError|otherError)`
on the authoritative store; the result is the zero value beside an error. -/
def storeGet {α : Type} [Named α] [Inhabited α] (resource : String) (store : List α)
    (ns name : String) : α × Option Err :=
  match lookup ns name store with
  | some o => (o, none)
  | none => (default, some (Err.notFound resource name))

/-- Modelled from the spec: `Create(object) -> (acceptedObject, error)` on the
authoritative store; an object whose name is taken is refused. -/
def storeCreate {α : Type} [Named α] [Inhabited α] (resource : String) (store : List α)
    (ns : String) (obj : α) : (α × Option Err) × List α :=
  match lookup ns (Named.name obj) store with
  | some _ => ((default, some (Err.alreadyExists resource (Named.name obj))), store)
  | none => ((obj, none), store ++ [obj])

/-- Modelled from the spec: `Update(object) -> (acceptedObject, error)` on the
authoritative store, a full overwrite of the object of that name. -/
def storeUpdate {α : Type} [Named α] [Inhabited α] (resource : String) (store : List α)
    (ns : String) (obj : α) : (α × Option Err) × List α :=
  match lookup ns (Named.name obj) store with
  | none => ((default, some (Err.notFound resource (Named.name obj))), store)
  | some _ => ((obj, none), replace ns (Named.name obj) obj store)

/-- The check made by `Name(name)` when the typed client builds the request of a
`Get` or of an `Update` (`clientset/.../eventbinding.go`, lines 66 and 120): an
empty resource name is refused and nothing is sent. -/
def refuseEmptyName (name : String) : Option Err :=
  if name = "" then some (Err.other "resource name may not be empty") else none

/-- The check `IsValidPathSegmentName` that the request builder applies to a
namespace and to a resource name: a segment `.` or `..`, or one with `/` or `%`
in it, is refused as well.  The calls below do not carry this refusal: the names
of cached objects have passed it on the server, and the theorems on resource
templates, whose names the server has not seen, take such names out by
hypothesis (`addressable`). -/
def IsValidPathSegmentName (segment : String) : Bool :=
  segment != "." && segment != ".." &&
    !(segment.toList.contains '/') && !(segment.toList.contains '%')

/-- A resource template that the typed client can address: its name and its
namespace are not empty and are valid path segments. -/
def addressable (resource : PipelineResource) : Bool :=
  resource.name != "" && resource.ns != "" &&
    IsValidPathSegmentName resource.name && IsValidPathSegmentName resource.ns

/-- Everything a reconciler reads or writes: the informer caches, the contents of
the authoritative store, the failures the live client reports (`fault c` is the
error with which call `c` fails on its way to the store, if any), the log of the
calls made on the typed client, whether or not a request was sent, and the
`-listener-image` flag.  The store itself takes every object: validation on the
server is outside the model. -/
structure World where
  eventBindingIndexer : Indexer EventBinding := {}
  pipelineIndexer : Indexer PipelineDef := {}
  tektonListenerIndexer : Indexer TektonListener := {}
  pipelineResources : List PipelineResource := []
  tektonListeners : List TektonListener := []
  statefulSets : List StatefulSet := []
  fault : Call → Option Err := fun _ => none
  calls : List Call := []
  listenerImage : String := "override:latest"

/-- The call `PipelineResources(ns).Get(name, GetOptions{})`. -/
def World.getPipelineResource (w : World) (ns name : String) :
    (PipelineResource × Option Err) × World :=
  let w1 := { w with calls := w.calls ++ [Call.getPipelineResource ns name] }
  match refuseEmptyName name with
  | some e => ((default, some e), w1)
  | none =>
    match w.fault (Call.getPipelineResource ns name) with
    | some e => ((default, some e), w1)
    | none => (storeGet "pipelineresource" w.pipelineResources ns name, w1)

/-- The call `PipelineResources(ns).Create(obj)`. -/
def World.createPipelineResource (w : World) (ns : String) (obj : PipelineResource) :
    (PipelineResource × Option Err) × World :=
  let w1 := { w with calls := w.calls ++ [Call.createPipelineResource ns obj] }
  match w.fault (Call.createPipelineResource ns obj) with
  | some e => ((default, some e), w1)
  | none =>
    let r := storeCreate "pipelineresource" w.pipelineResources ns obj
    (r.1, { w1 with pipelineResources := r.2 })

/-- The call `TektonListeners(ns).Get(name, GetOptions{})`. -/
def World.getTektonListener (w : World) (ns name : String) :
    (TektonListener × Option Err) × World :=
  let w1 := { w with calls := w.calls ++ [Call.getTektonListener ns name] }
  match refuseEmptyName name with
  | some e => ((default, some e), w1)
  | none =>
    match w.fault (Call.getTektonListener ns name) with
    | some e => ((default, some e), w1)
    | none => (storeGet "tektonlistener" w.tektonListeners ns name, w1)

/-- The call `TektonListeners(ns).Create(obj)`. -/
def World.createTektonListener (w : World) (ns : String) (obj : TektonListener) :
    (TektonListener × Option Err) × World :=
  let w1 := { w with calls := w.calls ++ [Call.createTektonListener ns obj] }
  match w.fault (Call.createTektonListener ns obj) with
  | some e => ((default, some e), w1)
  | none =>
    let r := storeCreate "tektonlistener" w.tektonListeners ns obj
    (r.1, { w1 with tektonListeners := r.2 })

/-- The call `TektonListeners(ns).Update(obj)`. -/
def World.updateTektonListener (w : World) (ns : String) (obj : TektonListener) :
    (TektonListener × Option Err) × World :=
  let w1 := { w with calls := w.calls ++ [Call.updateTektonListener ns obj] }
  match refuseEmptyName obj.name with
  | some e => ((default, some e), w1)
  | none =>
    match w.fault (Call.updateTektonListener ns obj) with
    | some e => ((default, some e), w1)
    | none =>
      let r := storeUpdate "tektonlistener" w.tektonListeners ns obj
      (r.1, { w1 with tektonListeners := r.2 })

/-- The call `AppsV1().StatefulSets(ns).Get(name, GetOptions{})`. -/
def World.getStatefulSet (w : World) (ns name : String) :
    (StatefulSet × Option Err) × World :=
  let w1 := { w with calls := w.calls ++ [Call.getStatefulSet ns name] }
  match refuseEmptyName name with
  | some e => ((default, some e), w1)
  | none =>
    match w.fault (Call.getStatefulSet ns name) with
    | some e => ((default, some e), w1)
    | none => (storeGet "statefulset" w.statefulSets ns name, w1)

/-- The call `AppsV1().StatefulSets(ns).Create(obj)`. -/
def World.createStatefulSet (w : World) (ns : String) (obj : StatefulSet) :
    (StatefulSet × Option Err) × World :=
  let w1 := { w with calls := w.calls ++ [Call.createStatefulSet ns obj] }
  match w.fault (Call.createStatefulSet ns obj) with
  | some e => ((default, some e), w1)
  | none =>
    let r := storeCreate "statefulset" w.statefulSets ns obj
    (r.1, { w1 with statefulSets := r.2 })

/-- The call `AppsV1().StatefulSets(ns).Update(obj)`. -/
def World.updateStatefulSet (w : World) (ns : String) (obj : StatefulSet) :
    (StatefulSet × Option Err) × World :=
  let w1 := { w with calls := w.calls ++ [Call.updateStatefulSet ns obj] }
  match refuseEmptyName obj.name with
  | some e => ((default, some e), w1)
  | none =>
    match w.fault (Call.updateStatefulSet ns obj) with
    | some e => ((default, some e), w1)
    | none =>
      let r := storeUpdate "statefulset" w.statefulSets ns obj
      (r.1, { w1 with statefulSets := r.2 })

/-! ## Go library functions used by the listener reconciler -/

/-- The conversion `[]byte(s)` for one character: its UTF-8 encoding. -/
def utf8Char (c : Char) : List Nat :=
  let n := c.toNat
  if n < 128 then [n]
  else if n < 2048 then [192 + n / 64, 128 + n % 64]
  else if n < 65536 then [224 + n / 4096, 128 + n / 64 % 64, 128 + n % 64]
  else [240 + n / 262144, 128 + n / 4096 % 64, 128 + n / 64 % 64, 128 + n % 64]

/-- The conversion `[]byte(s)`: the bytes of a string. -/
def bytesOf (s : String) : List Nat :=
  s.toList.flatMap utf8Char

/-- The alphabet of `base64.StdEncoding`. -/
def encodeStd : List Char :=
  "ABCDEFGHIJKLMNOPQRSTUVWXYZabcdefghijklmnopqrstuvwxyz0123456789+/".toList

/-- The character `enc.encode[v & 0x3F]`. -/
def encodeChar (v : Nat) : Char :=
  encodeStd.getD (v % 64) 'A'

/-- The method `Encoding.Encode` of `base64.StdEncoding`: three bytes become four
characters, and a remainder of one or two bytes is padded with `=`. -/
def encodeBytes : List Nat → List Char
  | [] => []
  | [a] =>
    let val := a * 65536
    [encodeChar (val / 262144), encodeChar (val / 4096), '=', '=']
  | [a, b] =>
    let val := a * 65536 + b * 256
    [encodeChar (val / 262144), encodeChar (val / 4096), encodeChar (val / 64), '=']
  | a :: b :: c :: rest =>
    let val := a * 65536 + b * 256 + c
    encodeChar (val / 262144) :: encodeChar (val / 4096) :: encodeChar (val / 64)
      :: encodeChar val :: encodeBytes rest

/-- The call `base64.StdEncoding.EncodeToString([]byte(s))`. -/
def EncodeToString (s : String) : String :=
  String.mk (encodeBytes (bytesOf s))

/-- The Go conversion `string(i)` of an integer: the UTF-8 text of the code point
`i`, and `"\uFFFD"` when `i` is not a valid code point. -/
def stringOfInt (i : Int) : String :=
  if 0 ≤ i ∧ Nat.isValidChar i.toNat then String.singleton (Char.ofNat i.toNat)
  else String.singleton (Char.ofNat 65533)

/-- The Go comparison `p == &T{}` of a pointer with the address of a composite
literal.  Taking the address of a composite literal makes a pointer to a new
variable, two pointers are equal only when they point to the same variable or are
both nil, and `PipelineRunSpec` is not of size zero: the comparison is false
whatever `p` holds. -/
def eqNewLiteral (_p : Option PipelineRunSpec) : Bool :=
  false

/-! ## BindingReconciler (`eventbinding.go`) -/

namespace eventbinding

/-- The `PipelineResourceBinding` appended for a resource template (lines 149-155). -/
def resourceBinding (resource : PipelineResource) : PipelineResourceBinding :=
  { name := resource.name
    resourceRef := { name := resource.spec.type, apiVersion := "v1alpha1" } }

/-- The loop over `binding.Spec.ResourceTemplates` (lines 132-156): each template
is fetched through the live client and created when the fetch reports not-found;
any other fetch error and any create error end `Reconcile` with that error;
otherwise a binding is appended to `pipelineResourceBindings`, which line 130
declares as a nil slice. -/
def createResourceTemplates :
    List PipelineResource → Slice PipelineResourceBinding → World →
      Except Err (Slice PipelineResourceBinding) × World
  | [], pipelineResourceBindings, w => (Except.ok pipelineResourceBindings, w)
  | resource :: rest, pipelineResourceBindings, w =>
    let got := w.getPipelineResource resource.ns resource.name
    if got.1.2 ≠ none ∧ IsNotFound got.1.2 = true then
      let made := got.2.createPipelineResource resource.ns resource
      match made.1.2 with
      | some err => (Except.error err, made.2)
      | none =>
        createResourceTemplates rest (pipelineResourceBindings.append (resourceBinding resource)) made.2
    else
      match got.1.2 with
      | some err => (Except.error err, got.2)
      | none =>
        createResourceTemplates rest (pipelineResourceBindings.append (resourceBinding resource)) got.2

/-- The value of `pipelineResourceBindings` once the loop has run over all the
templates (lines 130 and 149-155): the nil slice when there is no template, else
one binding per template, in order. -/
def resourceBindings (templates : List PipelineResource) : Slice PipelineResourceBinding :=
  templates.foldl (fun acc resource => acc.append (resourceBinding resource)) Slice.nil

/-- The literal `newListener` (lines 158-181). -/
def newListener (binding : EventBinding)
    (pipelineResourceBindings : Slice PipelineResourceBinding) : TektonListener :=
  { name := binding.name ++ "-listener"
    ns := binding.ns
    spec :=
      { pipelineRef := binding.spec.pipelineRef
        eventType := binding.spec.eventRef.eventName
        event := binding.spec.eventRef.eventType
        ns := binding.ns
        pipelineRunSpec := some
          { pipelineRef := binding.spec.pipelineRef
            trigger := { name := binding.name, type := "eventbinding" }
            resources := pipelineResourceBindings
            params := binding.spec.params
            serviceAccount := binding.spec.serviceAccount } } }

/-- Lines 197-211: compare the spec of `found` with the desired one by
`reflect.DeepEqual`, update when they differ, then write the status through the
`binding` pointer, which is the cached object filed under `key`.  On these
structures `DeepEqual` is equality: strings and integers by value, the pointer
`PipelineRunSpec` by what it points to, and the slices as `Slice`s, nil apart
from empty. -/
def updateAndSetStatus (w : World) (key : String) (binding : EventBinding)
    (listener found : TektonListener) : Outcome × World :=
  let setStatus (w1 : World) : Outcome × World :=
    (Outcome.returned none,
      { w1 with
        eventBindingIndexer :=
          { w1.eventBindingIndexer with
            items := modifyKey key
              (fun b => { b with status := { listenerName := listener.name, ns := listener.ns } })
              w1.eventBindingIndexer.items } })
  if listener.spec ≠ found.spec then
    let updated := w.updateTektonListener binding.ns { found with spec := listener.spec }
    match updated.1.2 with
    | some err => (Outcome.returned (some err), updated.2)
    | none => setStatus updated.2
  else setStatus w

/-- The method `Reconciler.Reconcile` of `eventbinding.go`. -/
def Reconcile (w : World) (key : String) : Outcome × World :=
  match SplitMetaNamespaceKey key with
  | Except.error _ => (Outcome.returned none, w)
  | Except.ok (ns, name) =>
    match eventBindingNamespaceLister.Get w.eventBindingIndexer ns name with
    | Except.error err =>
      if IsNotFound (some err) = true then (Outcome.returned none, w)
      else (Outcome.returned (some err), w)
    | Except.ok binding =>
      if binding.spec.pipelineRef.name = "" then (Outcome.returned none, w)
      else
        match pipelineNamespaceLister.Get w.pipelineIndexer ns binding.spec.pipelineRef.name with
        | Except.error err => (Outcome.returned (some err), w)
        | Except.ok _ =>
          match createResourceTemplates binding.spec.resourceTemplates Slice.nil w with
          | (Except.error err, w1) => (Outcome.returned (some err), w1)
          | (Except.ok pipelineResourceBindings, w1) =>
            let listener := newListener binding pipelineResourceBindings
            let got := w1.getTektonListener binding.ns listener.name
            let found := got.1.1
            if got.1.2 ≠ none ∧ IsNotFound got.1.2 = true then
              let created := got.2.createTektonListener binding.ns listener
              match created.1.2 with
              | some err => (Outcome.returned (some err), created.2)
              | none => updateAndSetStatus created.2 (ns ++ "/" ++ name) binding listener found
            else
              match got.1.2 with
              | some err => (Outcome.returned (some err), got.2)
              | none => updateAndSetStatus got.2 (ns ++ "/" ++ name) binding listener found

end eventbinding

/-! ## ListenerReconciler (`tektonlistener.go`) -/

namespace tektonlistener

/-- The slice `containerEnv` (lines 115-141). -/
def containerEnv (pl : TektonListener) : List EnvVar :=
  [ { name := "EVENT_TYPE", value := EncodeToString pl.spec.eventType },
    { name := "EVENT", value := EncodeToString pl.spec.event },
    { name := "NAMESPACE", value := EncodeToString pl.spec.ns },
    { name := "LISTENER_RESOURCE", value := EncodeToString pl.name },
    { name := "PORT", value := stringOfInt pl.spec.port } ]

/-- The literal `set` (lines 151-183), given the run spec that
`pl.Spec.PipelineRunSpec` points to.  The comment of lines 149-150 speaks of a
mounted secret; the literal has no volume and no secret. -/
def statefulSet (listenerImage : String) (pl : TektonListener) (runSpec : PipelineRunSpec) :
    StatefulSet :=
  { name := pl.name ++ "-statefulset"
    ns := pl.ns
    spec :=
      { selector := some [("statefulset", pl.name ++ "-statefulset")]
        template :=
          { labels := [("statefulset", pl.name ++ "-statefulset")]
            spec :=
              { serviceAccountName := runSpec.serviceAccount
                containers :=
                  [ { name := "tekton-listener"
                      image := listenerImage
                      env := containerEnv pl
                      ports :=
                        [ { name := "listener-port", containerPort := 8082, hostPort := 8082 } ] } ] } } } }

/-- What a run of the listener reconciler leaves: how it ended, the world, and the
deep copy `pl` it worked on (`none` when it ended before `pl.DeepCopy()`). -/
structure Run where
  outcome : Outcome
  world : World
  pl : Option TektonListener

/-- The method `Reconciler.Reconcile` of `tektonlistener.go`. -/
def Reconcile (w : World) (key : String) : Run :=
  match SplitMetaNamespaceKey key with
  | Except.error _ => ⟨Outcome.returned none, w, none⟩
  | Except.ok (ns, name) =>
    match tektonListenerNamespaceLister.Get w.tektonListenerIndexer ns name with
    | Except.error err =>
      if IsNotFound (some err) = true then ⟨Outcome.returned none, w, none⟩
      else ⟨Outcome.returned (some err), w, none⟩
    | Except.ok cached =>
      if eqNewLiteral cached.spec.pipelineRunSpec = true then ⟨Outcome.returned none, w, none⟩
      else
        let pl := cached
        let setName := pl.name ++ "-statefulset"
        match pl.spec.pipelineRunSpec with
        | none => ⟨Outcome.panicked, w, some pl⟩
        | some runSpec =>
          let set := statefulSet w.listenerImage pl runSpec
          let got := w.getStatefulSet pl.ns setName
          let found := got.1.1
          if got.1.2 ≠ none ∧ IsNotFound got.1.2 = true then
            let created := got.2.createStatefulSet pl.ns set
            ⟨Outcome.returned created.1.2, created.2,
              some { pl with status := { ns := pl.ns, statefulSetName := created.1.1.name } }⟩
          else
            match got.1.2 with
            | some err => ⟨Outcome.returned (some err), got.2, some pl⟩
            | none =>
              if set.spec ≠ found.spec then
                let updated := got.2.updateStatefulSet pl.ns { found with spec := set.spec }
                match updated.1.2 with
                | some err => ⟨Outcome.returned (some err), updated.2, some pl⟩
                | none =>
                  ⟨Outcome.returned none, updated.2,
                    some { pl with status := { ns := pl.ns, statefulSetName := updated.1.1.name } }⟩
              else ⟨Outcome.returned none, got.2, some pl⟩

end tektonlistener

/-! ## Reading the call log -/

/-- Is the call a `Create` or `Update` of a TektonListener? -/
def Call.isListenerWrite : Call → Bool
  | Call.createTektonListener _ _ => true
  | Call.updateTektonListener _ _ => true
  | _ => false

/-- Is the call a `Create` of a TektonListener? -/
def Call.isListenerCreate : Call → Bool
  | Call.createTektonListener _ _ => true
  | _ => false

/-- Is the call an `Update` of a TektonListener? -/
def Call.isListenerUpdate : Call → Bool
  | Call.updateTektonListener _ _ => true
  | _ => false

/-- Is the call a `Create` of a PipelineResource? -/
def Call.isResourceCreate : Call → Bool
  | Call.createPipelineResource _ _ => true
  | _ => false

/-- Is the call a `Create` or `Update` of a StatefulSet? -/
def Call.isStatefulSetWrite : Call → Bool
  | Call.createStatefulSet _ _ => true
  | Call.updateStatefulSet _ _ => true
  | _ => false

/-- Is the call a `Create` or an `Update` of any kind? -/
def Call.isWrite : Call → Bool
  | Call.getPipelineResource _ _ => false
  | Call.getTektonListener _ _ => false
  | Call.getStatefulSet _ _ => false
  | _ => true

/-! ## The calls issued by one run -/

/-- The calls that one run of the binding reconciler adds to the log. -/
def eventbinding.issued (w : World) (key : String) : List Call :=
  (eventbinding.Reconcile w key).2.calls.drop w.calls.length

/-- The calls that one run of the listener reconciler adds to the log. -/
def tektonlistener.issued (w : World) (key : String) : List Call :=
  (tektonlistener.Reconcile w key).world.calls.drop w.calls.length

/-! ## Sample clusters -/

/-- Two resource templates of namespace `ns`. -/
def sampleTemplates : List PipelineResource :=
  [ { name := "source", ns := "ns", spec := { type := "git" } },
    { name := "artifact", ns := "ns", spec := { type := "image" } } ]

/-- The binding `ns/b`: pipeline `p`, event `push` of type `github`, two templates. -/
def sampleBinding : EventBinding :=
  { name := "b"
    ns := "ns"
    spec :=
      { pipelineRef := { name := "p" }
        eventRef := { eventName := "push", eventType := "github" }
        resourceTemplates := sampleTemplates
        params := Slice.of [{ name := "revision", value := "master" }]
        serviceAccount := "robot" } }

/-- A pipeline cache holding the pipeline `ns/p`. -/
def samplePipelines : Indexer PipelineDef :=
  { items := [("ns/p", { name := "p", ns := "ns" })] }

/-- The listener that the binding reconciler derives from `sampleBinding`. -/
def sampleListener : TektonListener :=
  eventbinding.newListener sampleBinding (eventbinding.resourceBindings sampleTemplates)

/-- The binding `ns/b` is cached, its pipeline too, and the store is empty. -/
def newBindingWorld : World :=
  { eventBindingIndexer := { items := [("ns/b", sampleBinding)] }
    pipelineIndexer := samplePipelines }

/-- The binding `sampleBinding` with the same template listed twice. -/
def twiceTemplateBinding : EventBinding :=
  { sampleBinding with
    spec :=
      { sampleBinding.spec with
        resourceTemplates :=
          [ { name := "source", ns := "ns", spec := { type := "git" } },
            { name := "source", ns := "ns", spec := { type := "git" } } ] } }

/-- As `newBindingWorld`, with `twiceTemplateBinding` cached as `ns/b`. -/
def twiceTemplateWorld : World :=
  { eventBindingIndexer := { items := [("ns/b", twiceTemplateBinding)] }
    pipelineIndexer := samplePipelines }

/-- The binding `ns/b` has been reconciled: the store holds its templates and its
listener, and the pipeline `p` is cached. -/
def convergedWorld : World :=
  { eventBindingIndexer := { items := [("ns/b", sampleBinding)] }
    pipelineIndexer := samplePipelines
    pipelineResources := sampleTemplates
    tektonListeners := [sampleListener] }

/-- As `convergedWorld`, after the pipeline `p` has left the pipeline cache. -/
def convergedNoPipelineWorld : World :=
  { eventBindingIndexer := { items := [("ns/b", sampleBinding)] }
    pipelineResources := sampleTemplates
    tektonListeners := [sampleListener] }

/-- The binding `sampleBinding` with other params. -/
def changedBinding : EventBinding :=
  { sampleBinding with
    spec :=
      { sampleBinding.spec with
        params := Slice.of [{ name := "revision", value := "release" }] } }

/-- As `convergedWorld`, after the params of the cached binding have changed. -/
def paramsChangedWorld : World :=
  { eventBindingIndexer := { items := [("ns/b", changedBinding)] }
    pipelineIndexer := samplePipelines
    pipelineResources := sampleTemplates
    tektonListeners := [sampleListener] }

/-- As `paramsChangedWorld`, after the pipeline `p` has left the pipeline cache. -/
def paramsChangedNoPipelineWorld : World :=
  { eventBindingIndexer := { items := [("ns/b", changedBinding)] }
    pipelineResources := sampleTemplates
    tektonListeners := [sampleListener] }

/-- The binding `ns/b` is cached and no pipeline is. -/
def noPipelineWorld : World :=
  { eventBindingIndexer := { items := [("ns/b", sampleBinding)] } }

/-- A binding without a pipeline reference. -/
def unboundBinding : EventBinding :=
  { name := "b", ns := "ns", spec := { resourceTemplates := sampleTemplates } }

/-- The binding `ns/b` names no pipeline; the store holds a listener. -/
def unboundWorld : World :=
  { eventBindingIndexer := { items := [("ns/b", unboundBinding)] }
    pipelineIndexer := samplePipelines
    tektonListeners := [sampleListener] }

/-- A listener `ns/x` whose `PipelineRunSpec` points to the zero value. -/
def zeroRunSpecListener : TektonListener :=
  { name := "x"
    ns := "ns"
    spec :=
      { eventType := "github"
        event := "push"
        ns := "ns"
        pipelineRunSpec := some {} } }

/-- The listener `zeroRunSpecListener` is cached and the store is empty. -/
def zeroRunSpecWorld : World :=
  { tektonListenerIndexer := { items := [("ns/x", zeroRunSpecListener)] } }

/-- A listener `ns/x` with a run spec for the pipeline `p`. -/
def readyListener : TektonListener :=
  { name := "x"
    ns := "ns"
    spec :=
      { eventType := "github"
        event := "push"
        ns := "ns"
        pipelineRunSpec := some { pipelineRef := { name := "p" }, serviceAccount := "robot" } } }

/-- The listener `readyListener` is cached and the store is empty. -/
def readyListenerWorld : World :=
  { tektonListenerIndexer := { items := [("ns/x", readyListener)] } }

/-- Nothing is cached and the store is empty. -/
def emptyWorld : World :=
  {}

/-- Every lookup in the binding cache and in the listener cache fails. -/
def brokenCacheWorld : World :=
  { eventBindingIndexer := { failure := fun _ => some (Err.other "cache unavailable") }
    tektonListenerIndexer := { failure := fun _ => some (Err.other "cache unavailable") } }

/-- A client whose `Get` of a listener or of a workload fails with a server error. -/
def fetchFault : Call → Option Err
  | Call.getTektonListener _ _ => some (Err.other "server unavailable")
  | Call.getStatefulSet _ _ => some (Err.other "server unavailable")
  | _ => none

/-- As `newBindingWorld`, with a client that cannot fetch listeners. -/
def listenerFetchFailsWorld : World :=
  { eventBindingIndexer := { items := [("ns/b", sampleBinding)] }
    pipelineIndexer := samplePipelines
    fault := fetchFault }

/-- As `readyListenerWorld`, with a client that cannot fetch workloads. -/
def workloadFetchFailsWorld : World :=
  { tektonListenerIndexer := { items := [("ns/x", readyListener)] }
    fault := fetchFault }

/-- The value that the decode map of `base64.StdEncoding` gives a character: its
place in the alphabet, and nothing for a character outside it. -/
def decodeChar (c : Char) : Option Nat :=
  if encodeStd.indexOf c < 64 then some (encodeStd.indexOf c) else none

/-- The method `Encoding.Decode` of `base64.StdEncoding` on a text without line
breaks: four characters become three bytes; a last group ending in `=` or `==`
gives two bytes or one; any other text is corrupt. -/
def decodeChars : List Char → Option (List Nat)
  | [] => some []
  | c0 :: c1 :: c2 :: c3 :: rest =>
    match decodeChar c0, decodeChar c1 with
    | some v0, some v1 =>
      if c3 = '=' then
        if rest = [] then
          if c2 = '=' then
            let val := v0 * 262144 + v1 * 4096
            some [val / 65536]
          else
            match decodeChar c2 with
            | some v2 =>
              let val := v0 * 262144 + v1 * 4096 + v2 * 64
              some [val / 65536, val / 256 % 256]
            | none => none
        else none
      else
        match decodeChar c2, decodeChar c3, decodeChars rest with
        | some v2, some v3, some bytes =>
          let val := v0 * 262144 + v1 * 4096 + v2 * 64 + v3
          some (val / 65536 :: val / 256 % 256 :: val % 256 :: bytes)
        | _, _, _ => none
    | _, _ => none
  | _ => none

/-- The call `base64.StdEncoding.DecodeString(s)`: the decoded bytes, or nothing
for a corrupt text. -/
def DecodeString (s : String) : Option (List Nat) :=
  decodeChars s.toList

/-- A listener `ns/x` with the port 8082. -/
def portListener : TektonListener :=
  { name := "x"
    ns := "ns"
    spec :=
      { eventType := "github"
        event := "push"
        ns := "ns"
        port := 8082
        pipelineRunSpec := some { pipelineRef := { name := "p" }, serviceAccount := "robot" } } }

/-- The listener `portListener` is cached and the store is empty. -/
def portListenerWorld : World :=
  { tektonListenerIndexer := { items := [("ns/x", portListener)] } }

/-- As `newBindingWorld`, with a single resource template that has no name. -/
def unnamedTemplateWorld : World :=
  { eventBindingIndexer :=
      { items := [("ns/b",
          { sampleBinding with
            spec :=
              { sampleBinding.spec with resourceTemplates := [{ name := "", ns := "ns" }] } })] }
    pipelineIndexer := samplePipelines }

/-- The binding `sampleBinding` with params that are an empty slice, not nil. -/
def emptyParamsBinding : EventBinding :=
  { sampleBinding with spec := { sampleBinding.spec with params := Slice.of [] } }

/-- The binding `emptyParamsBinding` is cached; the store holds its templates and
a listener that differs from its projection only in that `Params` is nil. -/
def nilParamsListenerWorld : World :=
  { eventBindingIndexer := { items := [("ns/b", emptyParamsBinding)] }
    pipelineIndexer := samplePipelines
    pipelineResources := sampleTemplates
    tektonListeners :=
      [eventbinding.newListener
        { emptyParamsBinding with
          spec := { emptyParamsBinding.spec with params := Slice.nil } }
        (eventbinding.resourceBindings sampleTemplates)] }

/-! # Theorems -/

/-! ## Facts about the store -/

theorem lookup_some {α : Type} [Named α] (ns name : String) (o : α) :
    ∀ store : List α, lookup ns name store = some o → Named.ns o = ns ∧ Named.name o = name := by
  intro store
  induction store with
  | nil => intro h; simp [lookup] at h
  | cons x rest ih =>
    intro h
    unfold lookup at h
    split at h
    · rename_i hx
      cases h
      exact hx
    · exact ih h

theorem lookup_append_absent {α : Type} [Named α] (ns name : String) (o : α) :
    ∀ store : List α, lookup ns name store = none →
      lookup ns name (store ++ [o])
        = if Named.ns o = ns ∧ Named.name o = name then some o else none := by
  intro store
  induction store with
  | nil => intro _; simp [lookup]
  | cons x rest ih =>
    intro h
    unfold lookup at h
    split at h
    · cases h
    · rename_i hx
      simp only [List.cons_append, lookup, hx, if_false]
      exact ih h

theorem lookup_replace_self {α : Type} [Named α] (ns name : String) (o : α)
    (ho : Named.ns o = ns ∧ Named.name o = name) :
    ∀ store : List α, lookup ns name store ≠ none →
      lookup ns name (replace ns name o store) = some o := by
  intro store
  induction store with
  | nil => intro h; simp [lookup] at h
  | cons y rest ih =>
    intro h
    unfold lookup at h
    unfold replace
    split
    · simp [lookup, ho]
    · rename_i hy
      simp only [hy, if_false] at h
      simp only [lookup, hy, if_false]
      exact ih h

theorem lookup_replace_other {α : Type} [Named α] (ns name ns1 name1 : String) (o : α)
    (hname : name1 ≠ name) (ho : Named.name o ≠ name) :
    ∀ store : List α, lookup ns name (replace ns1 name1 o store) = lookup ns name store := by
  intro store
  induction store with
  | nil => simp [replace]
  | cons y rest ih =>
    unfold replace
    split
    · rename_i hy
      have h1 : ¬ (Named.ns o = ns ∧ Named.name o = name) := fun h => ho h.2
      have h2 : ¬ (Named.ns y = ns ∧ Named.name y = name) := fun h => hname (hy.2 ▸ h.2)
      simp [lookup, h1, h2]
    · unfold lookup
      split
      · rfl
      · exact ih

theorem listener_name_ne_empty (name : String) : name ++ "-listener" ≠ "" := by
  intro h
  have hl := congrArg String.length h
  rw [String.length_append] at hl
  have h9 : "-listener".length = 9 := by decide
  have h0 : "".length = 0 := by decide
  omega

theorem statefulset_name_ne_empty (name : String) : name ++ "-statefulset" ≠ "" := by
  intro h
  have hl := congrArg String.length h
  rw [String.length_append] at hl
  have h12 : "-statefulset".length = 12 := by decide
  have h0 : "".length = 0 := by decide
  omega

theorem refuseEmptyName_of_ne (name : String) (h : name ≠ "") : refuseEmptyName name = none := by
  simp [refuseEmptyName, h]

theorem refuseEmptyName_empty :
    refuseEmptyName "" = some (Err.other "resource name may not be empty") := by
  simp [refuseEmptyName]

theorem foldl_append_toList (ts : List PipelineResource) :
    ∀ acc : Slice PipelineResourceBinding,
      (ts.foldl (fun a t => a.append (eventbinding.resourceBinding t)) acc).toList
        = acc.toList ++ ts.map eventbinding.resourceBinding := by
  induction ts with
  | nil => intro acc; simp
  | cons t ts ih =>
    intro acc
    simp only [List.foldl_cons, ih, List.map_cons]
    simp [Slice.append, Slice.toList]

/-- The bindings that the loop yields are one per template, in order. -/
theorem resourceBindings_toList (ts : List PipelineResource) :
    (eventbinding.resourceBindings ts).toList = ts.map eventbinding.resourceBinding := by
  unfold eventbinding.resourceBindings
  rw [foldl_append_toList]
  rfl

theorem addressable_name (ts : List PipelineResource)
    (h : ∀ t ∈ ts, addressable t = true) : ∀ t ∈ ts, t.name ≠ "" := by
  intro t ht hempty
  have h1 := h t ht
  simp [addressable, hempty] at h1

/-! ## The loop over the resource templates -/

theorem loop_step_present (t : PipelineResource) (ts : List PipelineResource)
    (acc : Slice PipelineResourceBinding) (w : World) (o : PipelineResource)
    (hname : t.name ≠ "")
    (hfault : ∀ c, w.fault c = none)
    (h : lookup t.ns t.name w.pipelineResources = some o) :
    eventbinding.createResourceTemplates (t :: ts) acc w
      = eventbinding.createResourceTemplates ts (acc.append (eventbinding.resourceBinding t))
          { w with calls := w.calls ++ [Call.getPipelineResource t.ns t.name] } := by
  simp [eventbinding.createResourceTemplates, World.getPipelineResource,
    refuseEmptyName_of_ne _ hname, hfault, storeGet, h, IsNotFound]

theorem loop_step_absent (t : PipelineResource) (ts : List PipelineResource)
    (acc : Slice PipelineResourceBinding) (w : World)
    (hname : t.name ≠ "")
    (hfault : ∀ c, w.fault c = none)
    (h : lookup t.ns t.name w.pipelineResources = none) :
    eventbinding.createResourceTemplates (t :: ts) acc w
      = eventbinding.createResourceTemplates ts (acc.append (eventbinding.resourceBinding t))
          { w with
            calls := w.calls ++ [Call.getPipelineResource t.ns t.name,
              Call.createPipelineResource t.ns t]
            pipelineResources := w.pipelineResources ++ [t] } := by
  have h1 : lookup t.ns (Named.name t) w.pipelineResources = none := h
  simp [eventbinding.createResourceTemplates, World.getPipelineResource,
    refuseEmptyName_of_ne _ hname, World.createPipelineResource, hfault, storeGet,
    storeCreate, h, h1, IsNotFound]

/-- A template without name ends the loop: the typed client refuses the `Get` and
`Reconcile` returns that error (lines 146-147), with nothing created. -/
theorem loop_step_unnamed (t : PipelineResource) (ts : List PipelineResource)
    (acc : Slice PipelineResourceBinding) (w : World) (hname : t.name = "") :
    eventbinding.createResourceTemplates (t :: ts) acc w
      = (Except.error (Err.other "resource name may not be empty"),
          { w with calls := w.calls ++ [Call.getPipelineResource t.ns t.name] }) := by
  simp [eventbinding.createResourceTemplates, World.getPipelineResource, hname,
    refuseEmptyName_empty, IsNotFound]

/-- One turn of the loop, whatever the client answers: it ends `Reconcile` with
an error or goes on with the next template, and either way it leaves the caches,
the listeners and the fault behaviour alone and logs no call on a listener. -/
theorem loop_cons_cases (t : PipelineResource) (ts : List PipelineResource)
    (acc : Slice PipelineResourceBinding) (w : World) :
    ∃ (w1 : World) (cs : List Call),
      w1.eventBindingIndexer = w.eventBindingIndexer ∧
      w1.tektonListeners = w.tektonListeners ∧
      w1.fault = w.fault ∧
      w1.calls = w.calls ++ cs ∧
      cs.filter Call.isListenerWrite = [] ∧
      ((∃ e, eventbinding.createResourceTemplates (t :: ts) acc w = (Except.error e, w1)) ∨
        eventbinding.createResourceTemplates (t :: ts) acc w
          = eventbinding.createResourceTemplates ts
              (acc.append (eventbinding.resourceBinding t)) w1) := by
  by_cases hname : t.name = ""
  · exact ⟨{ w with calls := w.calls ++ [Call.getPipelineResource t.ns t.name] }, _,
      rfl, rfl, rfl, rfl, rfl, Or.inl ⟨_, loop_step_unnamed t ts acc w hname⟩⟩
  have hr := refuseEmptyName_of_ne _ hname
  have hcreate : let w0 : World :=
      { w with calls := w.calls ++ [Call.getPipelineResource t.ns t.name] }
      ∃ (w1 : World) (cs : List Call),
        w1.eventBindingIndexer = w.eventBindingIndexer ∧
        w1.tektonListeners = w.tektonListeners ∧
        w1.fault = w.fault ∧
        w1.calls = w.calls ++ cs ∧
        cs.filter Call.isListenerWrite = [] ∧
        ((∃ e, (match (w0.createPipelineResource t.ns t).1.2 with
              | some err => (Except.error err, (w0.createPipelineResource t.ns t).2)
              | none => eventbinding.createResourceTemplates ts
                  (acc.append (eventbinding.resourceBinding t))
                  (w0.createPipelineResource t.ns t).2) = (Except.error e, w1)) ∨
          (match (w0.createPipelineResource t.ns t).1.2 with
              | some err => (Except.error err, (w0.createPipelineResource t.ns t).2)
              | none => eventbinding.createResourceTemplates ts
                  (acc.append (eventbinding.resourceBinding t))
                  (w0.createPipelineResource t.ns t).2)
            = eventbinding.createResourceTemplates ts
                (acc.append (eventbinding.resourceBinding t)) w1) := by
    intro w0
    cases hf : w.fault (Call.createPipelineResource t.ns t) with
    | some e =>
      refine ⟨{ w with calls := w.calls ++ [Call.getPipelineResource t.ns t.name,
        Call.createPipelineResource t.ns t] }, _, rfl, rfl, rfl, rfl, rfl, Or.inl ⟨e, ?_⟩⟩
      simp [w0, World.createPipelineResource, hf]
    | none =>
      cases hl : lookup t.ns (Named.name t) w.pipelineResources with
      | some o =>
        refine ⟨{ w with calls := w.calls ++ [Call.getPipelineResource t.ns t.name,
          Call.createPipelineResource t.ns t] }, _, rfl, rfl, rfl, rfl, rfl,
          Or.inl ⟨Err.alreadyExists "pipelineresource" (Named.name t), ?_⟩⟩
        simp [w0, World.createPipelineResource, hf, storeCreate, hl]
      | none =>
        refine ⟨{ w with
          calls := w.calls ++ [Call.getPipelineResource t.ns t.name,
            Call.createPipelineResource t.ns t]
          pipelineResources := w.pipelineResources ++ [t] }, _, rfl, rfl, rfl, rfl, rfl,
          Or.inr ?_⟩
        simp [w0, World.createPipelineResource, hf, storeCreate, hl]
  cases hf : w.fault (Call.getPipelineResource t.ns t.name) with
  | some e =>
    cases e with
    | notFound r n =>
      have h := hcreate
      simpa [eventbinding.createResourceTemplates, World.getPipelineResource, hr, hf,
        IsNotFound] using h
    | alreadyExists r n =>
      refine ⟨{ w with calls := w.calls ++ [Call.getPipelineResource t.ns t.name] }, _,
        rfl, rfl, rfl, rfl, rfl, Or.inl ⟨Err.alreadyExists r n, ?_⟩⟩
      simp [eventbinding.createResourceTemplates, World.getPipelineResource, hr, hf,
        IsNotFound]
    | other m =>
      refine ⟨{ w with calls := w.calls ++ [Call.getPipelineResource t.ns t.name] }, _,
        rfl, rfl, rfl, rfl, rfl, Or.inl ⟨Err.other m, ?_⟩⟩
      simp [eventbinding.createResourceTemplates, World.getPipelineResource, hr, hf,
        IsNotFound]
  | none =>
    cases hl : lookup t.ns t.name w.pipelineResources with
    | some o =>
      refine ⟨{ w with calls := w.calls ++ [Call.getPipelineResource t.ns t.name] }, _,
        rfl, rfl, rfl, rfl, rfl, Or.inr ?_⟩
      simp [eventbinding.createResourceTemplates, World.getPipelineResource, hr, hf,
        storeGet, hl]
    | none =>
      have h := hcreate
      simpa [eventbinding.createResourceTemplates, World.getPipelineResource, hr, hf,
        storeGet, hl, IsNotFound] using h

/-- Whatever the client answers, the loop leaves the caches, the listeners and
the fault behaviour alone, and logs no call on a listener. -/
theorem loop_frame (ts : List PipelineResource) :
    ∀ (acc : Slice PipelineResourceBinding) (w : World),
      (eventbinding.createResourceTemplates ts acc w).2.eventBindingIndexer
          = w.eventBindingIndexer ∧
      (eventbinding.createResourceTemplates ts acc w).2.tektonListeners = w.tektonListeners ∧
      (eventbinding.createResourceTemplates ts acc w).2.fault = w.fault ∧
      ∃ cs, (eventbinding.createResourceTemplates ts acc w).2.calls = w.calls ++ cs ∧
        cs.filter Call.isListenerWrite = [] := by
  induction ts with
  | nil =>
    intro acc w
    exact ⟨rfl, rfl, rfl, [], by simp [eventbinding.createResourceTemplates], rfl⟩
  | cons t ts ih =>
    intro acc w
    obtain ⟨w1, cs, h1, h2, h3, h4, h5, h6⟩ := loop_cons_cases t ts acc w
    rcases h6 with ⟨e, h6⟩ | h6
    · rw [h6]
      exact ⟨h1, h2, h3, cs, h4, h5⟩
    · rw [h6]
      obtain ⟨k1, k2, k3, ds, k4, k5⟩ := ih (acc.append (eventbinding.resourceBinding t)) w1
      refine ⟨k1.trans h1, k2.trans h2, k3.trans h3, cs ++ ds, ?_, ?_⟩
      · rw [k4, h4, List.append_assoc]
      · rw [List.filter_append, h5, k5]; rfl

/-- When every template has a name and no call fails on its way to the store, the
loop runs to its end and yields one binding per template, in order. -/
theorem loop_result (ts : List PipelineResource) :
    ∀ (acc : Slice PipelineResourceBinding) (w : World), (∀ c, w.fault c = none) →
      (∀ t ∈ ts, t.name ≠ "") →
      (eventbinding.createResourceTemplates ts acc w).1
        = Except.ok (ts.foldl (fun a t => a.append (eventbinding.resourceBinding t)) acc) := by
  induction ts with
  | nil => intro acc w _ _; simp [eventbinding.createResourceTemplates]
  | cons t ts ih =>
    intro acc w hfault hnames
    have hname := hnames t (List.mem_cons_self _ _)
    have hrest : ∀ x ∈ ts, x.name ≠ "" := fun x hx => hnames x (List.mem_cons_of_mem _ hx)
    cases h : lookup t.ns t.name w.pipelineResources with
    | none =>
      rw [loop_step_absent t ts acc w hname hfault h, ih _ _ (by simpa using hfault) hrest]
      rfl
    | some o =>
      rw [loop_step_present t ts acc w o hname hfault h, ih _ _ (by simpa using hfault) hrest]
      rfl

/-- When every template has a name and is in the store, the loop only issues `Get`
calls. -/
theorem loop_present (ts : List PipelineResource) :
    ∀ (acc : Slice PipelineResourceBinding) (w : World), (∀ c, w.fault c = none) →
      (∀ t ∈ ts, t.name ≠ "") →
      (∀ t ∈ ts, lookup t.ns t.name w.pipelineResources ≠ none) →
      ∃ cs, (eventbinding.createResourceTemplates ts acc w).2.calls = w.calls ++ cs ∧
        cs.filter Call.isWrite = [] := by
  induction ts with
  | nil => intro acc w _ _ _; exact ⟨[], by simp [eventbinding.createResourceTemplates], rfl⟩
  | cons t ts ih =>
    intro acc w hfault hnames hall
    have hname := hnames t (List.mem_cons_self _ _)
    cases h : lookup t.ns t.name w.pipelineResources with
    | none => exact absurd h (hall t (List.mem_cons_self _ _))
    | some o =>
      rw [loop_step_present t ts acc w o hname hfault h]
      obtain ⟨cs, h1, h2⟩ := ih (acc.append (eventbinding.resourceBinding t))
        { w with calls := w.calls ++ [Call.getPipelineResource t.ns t.name] }
        (by simpa using hfault)
        (fun x hx => hnames x (List.mem_cons_of_mem _ hx))
        (fun x hx => hall x (List.mem_cons_of_mem _ hx))
      refine ⟨[Call.getPipelineResource t.ns t.name] ++ cs, ?_, ?_⟩
      · rw [h1]; simp
      · simp [List.filter_cons, Call.isWrite, h2]

/-- When every template has a name, no template is in the store and no two
templates share namespace and name, the loop creates every template, in order. -/
theorem loop_absent (ts : List PipelineResource) :
    ∀ (acc : Slice PipelineResourceBinding) (w : World), (∀ c, w.fault c = none) →
      (∀ t ∈ ts, t.name ≠ "") →
      (∀ t ∈ ts, lookup t.ns t.name w.pipelineResources = none) →
      ts.Pairwise (fun a b => ¬ (a.ns = b.ns ∧ a.name = b.name)) →
      ∃ cs, (eventbinding.createResourceTemplates ts acc w).2.calls = w.calls ++ cs ∧
        cs.filter Call.isResourceCreate
          = ts.map (fun t => Call.createPipelineResource t.ns t) := by
  induction ts with
  | nil => intro acc w _ _ _ _; exact ⟨[], by simp [eventbinding.createResourceTemplates], rfl⟩
  | cons t ts ih =>
    intro acc w hfault hnames hnone hpair
    have hname := hnames t (List.mem_cons_self _ _)
    have h := hnone t (List.mem_cons_self _ _)
    rw [loop_step_absent t ts acc w hname hfault h]
    rw [List.pairwise_cons] at hpair
    obtain ⟨cs, h1, h2⟩ := ih (acc.append (eventbinding.resourceBinding t))
      { w with
        calls := w.calls ++ [Call.getPipelineResource t.ns t.name,
          Call.createPipelineResource t.ns t]
        pipelineResources := w.pipelineResources ++ [t] }
      (by simpa using hfault)
      (fun x hx => hnames x (List.mem_cons_of_mem _ hx))
      (by
        intro x hx
        have hx0 := hnone x (List.mem_cons_of_mem _ hx)
        have hne := hpair.1 x hx
        show lookup x.ns x.name (w.pipelineResources ++ [t]) = none
        rw [lookup_append_absent x.ns x.name t _ hx0]
        exact if_neg hne)
      hpair.2
    refine ⟨[Call.getPipelineResource t.ns t.name, Call.createPipelineResource t.ns t] ++ cs,
      ?_, ?_⟩
    · rw [h1]; simp
    · simp [List.filter_cons, Call.isResourceCreate, h2]

/-! ## The three ways the binding reconciler meets the listener -/

/-- The run up to the fetch of the listener, when the binding is cached, names a
cached pipeline, and no call fails before reaching the store. -/
theorem reconcile_unfold (w : World) (key ns name : String) (binding : EventBinding)
    (p : PipelineDef)
    (hkey : SplitMetaNamespaceKey key = Except.ok (ns, name))
    (hget : eventBindingNamespaceLister.Get w.eventBindingIndexer ns name = Except.ok binding)
    (hname : binding.spec.pipelineRef.name ≠ "")
    (hpipe : pipelineNamespaceLister.Get w.pipelineIndexer ns binding.spec.pipelineRef.name
      = Except.ok p)
    (hfault : ∀ c, w.fault c = none)
    (hnames : ∀ t ∈ binding.spec.resourceTemplates, t.name ≠ "") :
    ∃ (w1 : World) (cs : List Call),
      w1 = (eventbinding.createResourceTemplates binding.spec.resourceTemplates
        Slice.nil w).2 ∧
      w1.tektonListeners = w.tektonListeners ∧ w1.fault = w.fault ∧
      w1.calls = w.calls ++ cs ∧ cs.filter Call.isListenerWrite = [] ∧
      eventbinding.Reconcile w key =
        (let listener := eventbinding.newListener binding
            (eventbinding.resourceBindings binding.spec.resourceTemplates)
         let got := w1.getTektonListener binding.ns listener.name
         if got.1.2 ≠ none ∧ IsNotFound got.1.2 = true then
           match (got.2.createTektonListener binding.ns listener).1.2 with
           | some err =>
             (Outcome.returned (some err), (got.2.createTektonListener binding.ns listener).2)
           | none =>
             eventbinding.updateAndSetStatus (got.2.createTektonListener binding.ns listener).2
               (ns ++ "/" ++ name) binding listener got.1.1
         else
           match got.1.2 with
           | some err => (Outcome.returned (some err), got.2)
           | none =>
             eventbinding.updateAndSetStatus got.2 (ns ++ "/" ++ name) binding listener
               got.1.1) := by
  obtain ⟨_, h2, h3, cs, h4, h5⟩ := loop_frame binding.spec.resourceTemplates Slice.nil w
  have hres := loop_result binding.spec.resourceTemplates Slice.nil w hfault hnames
  have hpair : eventbinding.createResourceTemplates binding.spec.resourceTemplates Slice.nil w
      = (Except.ok (eventbinding.resourceBindings binding.spec.resourceTemplates),
          (eventbinding.createResourceTemplates binding.spec.resourceTemplates Slice.nil w).2) :=
    Prod.ext (by simpa using hres) rfl
  refine ⟨_, cs, rfl, h2, h3, h4, h5, ?_⟩
  generalize (eventbinding.createResourceTemplates binding.spec.resourceTemplates Slice.nil w).2 = w1
    at hpair
  simp only [eventbinding.Reconcile, hkey, hget, hname, hpipe, if_false, hpair]

/-- A `Get` of a listener that the store holds. -/
theorem getTektonListener_found (w : World) (ns name : String) (l : TektonListener)
    (hname : name ≠ "")
    (hfault : ∀ c, w.fault c = none) (hl : lookup ns name w.tektonListeners = some l) :
    w.getTektonListener ns name
      = ((l, none), { w with calls := w.calls ++ [Call.getTektonListener ns name] }) := by
  simp [World.getTektonListener, refuseEmptyName_of_ne _ hname, hfault, storeGet, hl]

/-- A `Get` of a listener that the store does not hold. -/
theorem getTektonListener_absent (w : World) (ns name : String)
    (hname : name ≠ "")
    (hfault : ∀ c, w.fault c = none) (hl : lookup ns name w.tektonListeners = none) :
    w.getTektonListener ns name
      = ((default, some (Err.notFound "tektonlistener" name)),
          { w with calls := w.calls ++ [Call.getTektonListener ns name] }) := by
  simp [World.getTektonListener, refuseEmptyName_of_ne _ hname, hfault, storeGet, hl]

/-- A `Create` of a listener whose name is free. -/
theorem createTektonListener_absent (w : World) (ns : String) (obj : TektonListener)
    (hfault : ∀ c, w.fault c = none) (hl : lookup ns obj.name w.tektonListeners = none) :
    w.createTektonListener ns obj
      = ((obj, none),
          { w with
            calls := w.calls ++ [Call.createTektonListener ns obj]
            tektonListeners := w.tektonListeners ++ [obj] }) := by
  have h : lookup ns (Named.name obj) w.tektonListeners = none := hl
  simp [World.createTektonListener, hfault, storeCreate, h]

/-- An `Update` of a listener that the store holds. -/
theorem updateTektonListener_found (w : World) (ns : String) (obj x : TektonListener)
    (hname : obj.name ≠ "")
    (hfault : ∀ c, w.fault c = none) (hl : lookup ns obj.name w.tektonListeners = some x) :
    w.updateTektonListener ns obj
      = ((obj, none),
          { w with
            calls := w.calls ++ [Call.updateTektonListener ns obj]
            tektonListeners := replace ns obj.name obj w.tektonListeners }) := by
  have h : lookup ns (Named.name obj) w.tektonListeners = some x := hl
  simp [World.updateTektonListener, refuseEmptyName_of_ne _ hname, hfault, storeUpdate, h]
  rfl

/-- An `Update` of a listener without name: the typed client refuses it, whatever
the store holds and however the client behaves otherwise. -/
theorem updateTektonListener_unnamed (w : World) (ns : String) (obj : TektonListener)
    (hname : obj.name = "") :
    w.updateTektonListener ns obj
      = ((default, some (Err.other "resource name may not be empty")),
          { w with calls := w.calls ++ [Call.updateTektonListener ns obj] }) := by
  simp [World.updateTektonListener, hname, refuseEmptyName_empty]

/-- The listener is in the store with the desired spec: one `Get`, nothing else. -/
theorem reconcile_found_same (w : World) (key ns name : String) (binding : EventBinding)
    (p : PipelineDef) (l : TektonListener)
    (hkey : SplitMetaNamespaceKey key = Except.ok (ns, name))
    (hget : eventBindingNamespaceLister.Get w.eventBindingIndexer ns name = Except.ok binding)
    (hname : binding.spec.pipelineRef.name ≠ "")
    (hpipe : pipelineNamespaceLister.Get w.pipelineIndexer ns binding.spec.pipelineRef.name
      = Except.ok p)
    (hfault : ∀ c, w.fault c = none)
    (hnames : ∀ t ∈ binding.spec.resourceTemplates, t.name ≠ "")
    (hl : lookup binding.ns (binding.name ++ "-listener") w.tektonListeners = some l)
    (hspec : l.spec = (eventbinding.newListener binding
      (eventbinding.resourceBindings binding.spec.resourceTemplates)).spec) :
    (eventbinding.Reconcile w key).1 = Outcome.returned none ∧
    (eventbinding.Reconcile w key).2.tektonListeners = w.tektonListeners ∧
    (eventbinding.Reconcile w key).2.calls
      = (eventbinding.createResourceTemplates binding.spec.resourceTemplates Slice.nil w).2.calls
        ++ [Call.getTektonListener binding.ns (binding.name ++ "-listener")] := by
  obtain ⟨w1, cs, hw1, h2, h3, h4, h5, hrec⟩ :=
    reconcile_unfold w key ns name binding p hkey hget hname hpipe hfault hnames
  rw [hrec, ← hw1]
  have hf1 : ∀ c, w1.fault c = none := by rw [h3]; exact hfault
  have hl1 : lookup binding.ns (binding.name ++ "-listener") w1.tektonListeners = some l := by
    rw [h2]; exact hl
  have hn : (eventbinding.newListener binding
      (eventbinding.resourceBindings binding.spec.resourceTemplates)).name
      = binding.name ++ "-listener" := rfl
  dsimp only
  rw [hn, getTektonListener_found w1 _ _ l (listener_name_ne_empty binding.name) hf1 hl1]
  simp [IsNotFound, eventbinding.updateAndSetStatus, hspec, h2]

/-- The listener is in the store with another spec: one `Get`, then one `Update`
of the found listener carrying the desired spec. -/
theorem reconcile_found_diff (w : World) (key ns name : String) (binding : EventBinding)
    (p : PipelineDef) (l : TektonListener)
    (hkey : SplitMetaNamespaceKey key = Except.ok (ns, name))
    (hget : eventBindingNamespaceLister.Get w.eventBindingIndexer ns name = Except.ok binding)
    (hname : binding.spec.pipelineRef.name ≠ "")
    (hpipe : pipelineNamespaceLister.Get w.pipelineIndexer ns binding.spec.pipelineRef.name
      = Except.ok p)
    (hfault : ∀ c, w.fault c = none)
    (hnames : ∀ t ∈ binding.spec.resourceTemplates, t.name ≠ "")
    (hl : lookup binding.ns (binding.name ++ "-listener") w.tektonListeners = some l)
    (hspec : l.spec ≠ (eventbinding.newListener binding
      (eventbinding.resourceBindings binding.spec.resourceTemplates)).spec) :
    (eventbinding.Reconcile w key).1 = Outcome.returned none ∧
    (eventbinding.Reconcile w key).2.tektonListeners
      = replace binding.ns (binding.name ++ "-listener")
          { l with spec := (eventbinding.newListener binding
            (eventbinding.resourceBindings binding.spec.resourceTemplates)).spec }
          w.tektonListeners ∧
    (eventbinding.Reconcile w key).2.calls
      = (eventbinding.createResourceTemplates binding.spec.resourceTemplates Slice.nil w).2.calls
        ++ [Call.getTektonListener binding.ns (binding.name ++ "-listener"),
            Call.updateTektonListener binding.ns
              { l with spec := (eventbinding.newListener binding
                (eventbinding.resourceBindings binding.spec.resourceTemplates)).spec }] := by
  obtain ⟨w1, cs, hw1, h2, h3, h4, h5, hrec⟩ :=
    reconcile_unfold w key ns name binding p hkey hget hname hpipe hfault hnames
  rw [hrec, ← hw1]
  have hf1 : ∀ c, w1.fault c = none := by rw [h3]; exact hfault
  have hl1 : lookup binding.ns (binding.name ++ "-listener") w1.tektonListeners = some l := by
    rw [h2]; exact hl
  have hln : l.name = binding.name ++ "-listener" := (lookup_some _ _ l _ hl).2
  have hn : (eventbinding.newListener binding
      (eventbinding.resourceBindings binding.spec.resourceTemplates)).name
      = binding.name ++ "-listener" := rfl
  have hspec1 : ¬ (eventbinding.newListener binding
      (eventbinding.resourceBindings binding.spec.resourceTemplates)).spec = l.spec :=
    fun h => hspec h.symm
  dsimp only
  rw [hn, getTektonListener_found w1 _ _ l (listener_name_ne_empty binding.name) hf1 hl1]
  have hupd := updateTektonListener_found
    { w1 with calls := w1.calls ++ [Call.getTektonListener binding.ns (binding.name ++ "-listener")] }
    binding.ns
    { l with spec := (eventbinding.newListener binding
      (eventbinding.resourceBindings binding.spec.resourceTemplates)).spec } l
    (by show l.name ≠ ""; rw [hln]; exact listener_name_ne_empty binding.name) hf1
    (by show lookup binding.ns l.name w1.tektonListeners = some l; rw [hln]; exact hl1)
  simp only [IsNotFound, eventbinding.updateAndSetStatus, hspec1, ne_eq, not_true_eq_false,
    not_false_eq_true, if_true, if_false, false_and, and_false, hupd, Bool.false_eq_true]
  simp [h2, hln]

/-- The listener is not in the store: one `Get`, one `Create` of the desired
listener, and then an `Update` of the zero-valued `found` that the failed `Get`
returned, carrying the desired spec under an empty name.  The typed client
refuses that `Update` and `Reconcile` returns its error; the store holds the
created listener. -/
theorem reconcile_absent (w : World) (key ns name : String) (binding : EventBinding)
    (p : PipelineDef)
    (hkey : SplitMetaNamespaceKey key = Except.ok (ns, name))
    (hget : eventBindingNamespaceLister.Get w.eventBindingIndexer ns name = Except.ok binding)
    (hname : binding.spec.pipelineRef.name ≠ "")
    (hpipe : pipelineNamespaceLister.Get w.pipelineIndexer ns binding.spec.pipelineRef.name
      = Except.ok p)
    (hfault : ∀ c, w.fault c = none)
    (hnames : ∀ t ∈ binding.spec.resourceTemplates, t.name ≠ "")
    (hl : lookup binding.ns (binding.name ++ "-listener") w.tektonListeners = none) :
    (eventbinding.Reconcile w key).1
      = Outcome.returned (some (Err.other "resource name may not be empty")) ∧
    lookup binding.ns (binding.name ++ "-listener") (eventbinding.Reconcile w key).2.tektonListeners
      = some (eventbinding.newListener binding
          (eventbinding.resourceBindings binding.spec.resourceTemplates)) ∧
    (eventbinding.Reconcile w key).2.calls
      = (eventbinding.createResourceTemplates binding.spec.resourceTemplates Slice.nil w).2.calls
        ++ [Call.getTektonListener binding.ns (binding.name ++ "-listener"),
            Call.createTektonListener binding.ns (eventbinding.newListener binding
              (eventbinding.resourceBindings binding.spec.resourceTemplates)),
            Call.updateTektonListener binding.ns
              { (default : TektonListener) with spec := (eventbinding.newListener binding
                (eventbinding.resourceBindings binding.spec.resourceTemplates)).spec }] := by
  obtain ⟨w1, cs, hw1, h2, h3, h4, h5, hrec⟩ :=
    reconcile_unfold w key ns name binding p hkey hget hname hpipe hfault hnames
  rw [hrec, ← hw1]
  have hf1 : ∀ c, w1.fault c = none := by rw [h3]; exact hfault
  have hl1 : lookup binding.ns (binding.name ++ "-listener") w1.tektonListeners = none := by
    rw [h2]; exact hl
  have hn : (eventbinding.newListener binding
      (eventbinding.resourceBindings binding.spec.resourceTemplates)).name
      = binding.name ++ "-listener" := rfl
  have hne := listener_name_ne_empty binding.name
  generalize hL : eventbinding.newListener binding
      (eventbinding.resourceBindings binding.spec.resourceTemplates) = L at hn ⊢
  have hLns : L.ns = binding.ns := by rw [← hL]; rfl
  have hstore : lookup binding.ns (binding.name ++ "-listener") (w1.tektonListeners ++ [L])
      = some L := by
    rw [lookup_append_absent _ _ _ _ hl1]
    simp [Named.ns, Named.name, hn, hLns]
  have hneq : ¬ L.spec = (default : TektonListener).spec := by
    intro h
    have h1 := congrArg TektonListenerSpec.pipelineRunSpec h
    rw [← hL] at h1
    simp [eventbinding.newListener] at h1
  dsimp only
  rw [hn, getTektonListener_absent w1 _ _ hne hf1 hl1]
  have hcre := createTektonListener_absent
    { w1 with calls := w1.calls ++ [Call.getTektonListener binding.ns (binding.name ++ "-listener")] }
    binding.ns L hf1 (by show lookup binding.ns L.name w1.tektonListeners = none; rw [hn]; exact hl1)
  simp only [IsNotFound, ne_eq, reduceCtorEq, not_false_eq_true, and_self, if_true, hcre,
    eventbinding.updateAndSetStatus, hneq]
  have hupd := updateTektonListener_unnamed
    { w1 with
      calls := w1.calls ++ [Call.getTektonListener binding.ns (binding.name ++ "-listener")]
        ++ [Call.createTektonListener binding.ns L]
      tektonListeners := w1.tektonListeners ++ [L] }
    binding.ns { (default : TektonListener) with spec := L.spec } rfl
  simp only [hupd]
  simp [hstore]

/-! ## ListenerReconciler: the guard on the run spec and the first reconcile -/

/-- C1, evaluated on the code: the listener `ns/x` is cached with a
`PipelineRunSpec` that points to the zero value and the store holds no workload.
`Reconcile` returns nil, as the claim says, yet it issues a `Create` of the
StatefulSet `x-statefulset`: the guard of line 107 compares the pointer with the
address of a new literal and never holds. -/
theorem C1_zero_run_spec_still_creates :
    zeroRunSpecListener.spec.pipelineRunSpec = some ({} : PipelineRunSpec) ∧
    (tektonlistener.Reconcile zeroRunSpecWorld "ns/x").outcome = Outcome.returned none ∧
    tektonlistener.issued zeroRunSpecWorld "ns/x"
      = [Call.getStatefulSet "ns" "x-statefulset",
         Call.createStatefulSet "ns"
          (tektonlistener.statefulSet "override:latest" zeroRunSpecListener {})] := by
  decide

/-- C9: a cached listener `pl` whose `PipelineRunSpec` is set, with no workload
`"<pl.Name>-statefulset"` in the store of namespace `pl.Namespace` and a client
whose calls reach the store.  Then `Reconcile` issues the `Get` and exactly one
`Create`, of a workload named `"<pl.Name>-statefulset"` in `pl.Namespace` with one
container, one port (container port and host port 8082), selector and pod labels
`{statefulset: "<pl.Name>-statefulset"}`; it returns nil and leaves the status
`StatefulSetName = "<pl.Name>-statefulset"`, `Namespace = pl.Namespace` on its copy
of the listener. -/
theorem C9_first_reconcile_creates_workload (w : World) (key ns name : String)
    (pl : TektonListener) (runSpec : PipelineRunSpec)
    (hkey : SplitMetaNamespaceKey key = Except.ok (ns, name))
    (hget : tektonListenerNamespaceLister.Get w.tektonListenerIndexer ns name = Except.ok pl)
    (hrun : pl.spec.pipelineRunSpec = some runSpec)
    (hfault : ∀ c, w.fault c = none)
    (habsent : lookup pl.ns (pl.name ++ "-statefulset") w.statefulSets = none) :
    ∃ (set : StatefulSet) (c : Container) (port : ContainerPort),
      tektonlistener.issued w key
        = [Call.getStatefulSet pl.ns (pl.name ++ "-statefulset"),
           Call.createStatefulSet pl.ns set] ∧
      set.name = pl.name ++ "-statefulset" ∧ set.ns = pl.ns ∧
      set.spec.template.spec.containers = [c] ∧ c.ports = [port] ∧
      port.containerPort = 8082 ∧ port.hostPort = 8082 ∧
      set.spec.selector = some [("statefulset", pl.name ++ "-statefulset")] ∧
      set.spec.template.labels = [("statefulset", pl.name ++ "-statefulset")] ∧
      (tektonlistener.Reconcile w key).outcome = Outcome.returned none ∧
      (tektonlistener.Reconcile w key).pl
        = some { pl with
            status := { ns := pl.ns, statefulSetName := pl.name ++ "-statefulset" } } := by
  have hl : lookup pl.ns (Named.name (tektonlistener.statefulSet w.listenerImage pl runSpec))
      w.statefulSets = none := habsent
  refine ⟨tektonlistener.statefulSet w.listenerImage pl runSpec, _, _, ?_, rfl, rfl, rfl, rfl,
    rfl, rfl, rfl, rfl, ?_, ?_⟩
  all_goals
    simp [tektonlistener.issued, tektonlistener.Reconcile, hkey, hget, eqNewLiteral, hrun,
      World.getStatefulSet, refuseEmptyName_of_ne _ (statefulset_name_ne_empty pl.name),
      World.createStatefulSet, hfault, storeGet, storeCreate, habsent, hl, IsNotFound]
  rfl

/-- Witness of C9 on the cluster `readyListenerWorld`. -/
theorem C9_first_reconcile_creates_workload_witness :
    ∃ (set : StatefulSet) (c : Container) (port : ContainerPort),
      tektonlistener.issued readyListenerWorld "ns/x"
        = [Call.getStatefulSet "ns" "x-statefulset", Call.createStatefulSet "ns" set] ∧
      set.name = "x-statefulset" ∧ set.ns = "ns" ∧
      set.spec.template.spec.containers = [c] ∧ c.ports = [port] ∧
      port.containerPort = 8082 ∧ port.hostPort = 8082 ∧
      set.spec.selector = some [("statefulset", "x-statefulset")] ∧
      set.spec.template.labels = [("statefulset", "x-statefulset")] ∧
      (tektonlistener.Reconcile readyListenerWorld "ns/x").outcome = Outcome.returned none ∧
      (tektonlistener.Reconcile readyListenerWorld "ns/x").pl
        = some { readyListener with
            status := { ns := "ns", statefulSetName := "x-statefulset" } } :=
  C9_first_reconcile_creates_workload readyListenerWorld "ns/x" "ns" "x" readyListener
    { pipelineRef := { name := "p" }, serviceAccount := "robot" } rfl rfl rfl (fun _ => rfl) rfl

/-! ## BindingReconciler -/

/-- C2, evaluated on the code: the binding `ns/b` is cached with its pipeline and
the store holds no listener, so the live fetch of `b-listener` reports not-found.
`Reconcile` issues the `Create` of `b-listener` and then, falling through to the
comparison of line 197 with the zero-valued `found`, an `Update` of a listener
without name that carries the desired spec; the typed client refuses that `Update`
for its empty name and its error is what `Reconcile` returns. -/
theorem C2_update_follows_create :
    lookup "ns" "b-listener" newBindingWorld.tektonListeners = none ∧
    (eventbinding.issued newBindingWorld "ns/b").filter Call.isListenerWrite
      = [Call.createTektonListener "ns" sampleListener,
         Call.updateTektonListener "ns" { spec := sampleListener.spec }] ∧
    (eventbinding.Reconcile newBindingWorld "ns/b").1
      = Outcome.returned (some (Err.other "resource name may not be empty")) := by
  decide

/-- C3, evaluated on the code: the binding `ns/b` has the `EventRef` with event
name `push` and event type `github`.  The listener that `Reconcile` creates has
`EventType = "push"`, the event name, and `Event = "github"`, the event type: the
two fields are crossed (lines 167-168). -/
theorem C3_event_fields_crossed :
    sampleBinding.spec.eventRef = { eventName := "push", eventType := "github" } ∧
    Call.createTektonListener "ns" sampleListener ∈ eventbinding.issued newBindingWorld "ns/b" ∧
    sampleListener.spec.eventType = "push" ∧
    sampleListener.spec.event = "github" := by
  decide

/-- C7: a cached binding whose `PipelineRef.Name` is not empty and names a pipeline
that the pipeline cache does not hold.  `Reconcile` returns the not-found error of
the pipeline lister and issues no call at all on the live client. -/
theorem C7_missing_pipeline_not_found (w : World) (key ns name : String)
    (binding : EventBinding)
    (hkey : SplitMetaNamespaceKey key = Except.ok (ns, name))
    (hget : eventBindingNamespaceLister.Get w.eventBindingIndexer ns name = Except.ok binding)
    (hname : binding.spec.pipelineRef.name ≠ "")
    (habsent : w.pipelineIndexer.GetByKey (ns ++ "/" ++ binding.spec.pipelineRef.name)
      = Except.ok none) :
    ∃ err, eventbinding.Reconcile w key = (Outcome.returned (some err), w) ∧
      IsNotFound (some err) = true ∧
      eventbinding.issued w key = [] := by
  have h : eventbinding.Reconcile w key
      = (Outcome.returned (some (Err.notFound "pipeline" binding.spec.pipelineRef.name)), w) := by
    simp [eventbinding.Reconcile, hkey, hget, hname, pipelineNamespaceLister.Get, habsent]
  exact ⟨_, h, rfl, by simp [eventbinding.issued, h]⟩

/-- Witness of C7 on the cluster `noPipelineWorld`. -/
theorem C7_missing_pipeline_not_found_witness :
    ∃ err, eventbinding.Reconcile noPipelineWorld "ns/b"
        = (Outcome.returned (some err), noPipelineWorld) ∧
      IsNotFound (some err) = true ∧
      eventbinding.issued noPipelineWorld "ns/b" = [] :=
  C7_missing_pipeline_not_found noPipelineWorld "ns/b" "ns" "b" sampleBinding rfl rfl
    (by decide) rfl

/-- C8: a cached binding whose `PipelineRef.Name` is empty.  `Reconcile` returns nil
and leaves the world as it was, whatever the caches and the store hold and however
the client behaves: no call is issued. -/
theorem C8_empty_pipeline_ref_noop (w : World) (key ns name : String)
    (binding : EventBinding)
    (hkey : SplitMetaNamespaceKey key = Except.ok (ns, name))
    (hget : eventBindingNamespaceLister.Get w.eventBindingIndexer ns name = Except.ok binding)
    (hempty : binding.spec.pipelineRef.name = "") :
    eventbinding.Reconcile w key = (Outcome.returned none, w) ∧
      eventbinding.issued w key = [] := by
  have h : eventbinding.Reconcile w key = (Outcome.returned none, w) := by
    simp [eventbinding.Reconcile, hkey, hget, hempty]
  exact ⟨h, by simp [eventbinding.issued, h]⟩

/-- Witness of C8 on the cluster `unboundWorld`. -/
theorem C8_empty_pipeline_ref_noop_witness :
    eventbinding.Reconcile unboundWorld "ns/b" = (Outcome.returned none, unboundWorld) ∧
      eventbinding.issued unboundWorld "ns/b" = [] :=
  C8_empty_pipeline_ref_noop unboundWorld "ns/b" "ns" "b" unboundBinding rfl rfl rfl

/-- C10, evaluated on the code: on the cluster of C2 the `Create` carries the
projection of the binding, but the `Update` that follows it carries a listener
whose name and namespace are empty, not `b-listener` and `ns`. -/
theorem C10_update_after_create_unnamed :
    ∃ l : TektonListener,
      Call.updateTektonListener "ns" l ∈ eventbinding.issued newBindingWorld "ns/b" ∧
      l.name = "" ∧ l.ns = "" ∧ l.spec = sampleListener.spec ∧
      l.name ≠ sampleBinding.name ++ "-listener" ∧ l.ns ≠ sampleBinding.ns :=
  ⟨{ spec := sampleListener.spec }, by decide, rfl, rfl, rfl, by decide, by decide⟩

theorem issued_eq (w : World) (key : String) (ts : List PipelineResource)
    (cs tail : List Call)
    (h1 : (eventbinding.createResourceTemplates ts Slice.nil w).2.calls = w.calls ++ cs)
    (h2 : (eventbinding.Reconcile w key).2.calls
      = (eventbinding.createResourceTemplates ts Slice.nil w).2.calls ++ tail) :
    eventbinding.issued w key = cs ++ tail := by
  unfold eventbinding.issued
  rw [h2, h1]
  simp

/-- C4 as stated fails on the code: the binding of `twiceTemplateWorld` has two
resource templates, neither is in the store and its pipeline is cached, yet
`Reconcile` issues one `Create` of a PipelineResource, not two: the second `Get`
finds what the first turn of the loop created. -/
theorem C4_counterexample_same_template_twice :
    eventBindingNamespaceLister.Get twiceTemplateWorld.eventBindingIndexer "ns" "b"
      = Except.ok twiceTemplateBinding ∧
    twiceTemplateBinding.spec.resourceTemplates.length = 2 ∧
    (∀ t ∈ twiceTemplateBinding.spec.resourceTemplates,
      lookup t.ns t.name twiceTemplateWorld.pipelineResources = none) ∧
    pipelineNamespaceLister.Get twiceTemplateWorld.pipelineIndexer "ns"
      twiceTemplateBinding.spec.pipelineRef.name = Except.ok { name := "p", ns := "ns" } ∧
    ((eventbinding.issued twiceTemplateWorld "ns/b").filter Call.isResourceCreate).length
      = 1 ∧
    ((eventbinding.issued twiceTemplateWorld "ns/b").filter Call.isResourceCreate).length
      ≠ twiceTemplateBinding.spec.resourceTemplates.length :=
  ⟨rfl, by decide, by decide, rfl, by decide, by decide⟩

/-- C4, amended: a cached binding whose `PipelineRef.Name` is not empty and names a
cached pipeline, with N resource templates that the typed client can address
(name and namespace not empty and valid path segments), no two of them with the
same namespace and name, none of which is in the store, and a client whose calls
reach the store.  Then `Reconcile` issues exactly N `Create` calls of
PipelineResources, one per template in order, and afterwards the store holds the
listener `"<binding.Name>-listener"` whose `PipelineRunSpec.Resources` has exactly N
bindings, the i-th with `ResourceRef.Name` the type of the i-th template; when the
store did not hold that listener before, it is the object of a `Create` call. -/
theorem C4_templates_and_listener_created (w : World) (key ns name : String)
    (binding : EventBinding) (p : PipelineDef)
    (hkey : SplitMetaNamespaceKey key = Except.ok (ns, name))
    (hget : eventBindingNamespaceLister.Get w.eventBindingIndexer ns name = Except.ok binding)
    (hname : binding.spec.pipelineRef.name ≠ "")
    (hpipe : pipelineNamespaceLister.Get w.pipelineIndexer ns binding.spec.pipelineRef.name
      = Except.ok p)
    (hfault : ∀ c, w.fault c = none)
    (haddr : ∀ t ∈ binding.spec.resourceTemplates, addressable t = true)
    (hnone : ∀ t ∈ binding.spec.resourceTemplates,
      lookup t.ns t.name w.pipelineResources = none)
    (hdistinct : binding.spec.resourceTemplates.Pairwise
      (fun a b => ¬ (a.ns = b.ns ∧ a.name = b.name))) :
    (eventbinding.issued w key).filter Call.isResourceCreate
        = binding.spec.resourceTemplates.map (fun t => Call.createPipelineResource t.ns t) ∧
    ((eventbinding.issued w key).filter Call.isResourceCreate).length
        = binding.spec.resourceTemplates.length ∧
    ∃ (l : TektonListener) (runSpec : PipelineRunSpec),
      lookup binding.ns (binding.name ++ "-listener")
          (eventbinding.Reconcile w key).2.tektonListeners = some l ∧
      l.spec.pipelineRunSpec = some runSpec ∧
      runSpec.resources.toList.length = binding.spec.resourceTemplates.length ∧
      runSpec.resources.toList.map (fun r => r.resourceRef.name)
        = binding.spec.resourceTemplates.map (fun t => t.spec.type) ∧
      (lookup binding.ns (binding.name ++ "-listener") w.tektonListeners = none →
        Call.createTektonListener binding.ns l ∈ eventbinding.issued w key) := by
  have hnames := addressable_name binding.spec.resourceTemplates haddr
  obtain ⟨cs, hcs, hcreate⟩ :=
    loop_absent binding.spec.resourceTemplates Slice.nil w hfault hnames hnone hdistinct
  have hres : (eventbinding.newListener binding
      (eventbinding.resourceBindings binding.spec.resourceTemplates)).spec.pipelineRunSpec
      = some
          { pipelineRef := binding.spec.pipelineRef
            trigger := { name := binding.name, type := "eventbinding" }
            resources := eventbinding.resourceBindings binding.spec.resourceTemplates
            params := binding.spec.params
            serviceAccount := binding.spec.serviceAccount } := rfl
  have hlen : (eventbinding.resourceBindings binding.spec.resourceTemplates).toList.length
      = binding.spec.resourceTemplates.length := by
    rw [resourceBindings_toList, List.length_map]
  have hmap : (eventbinding.resourceBindings binding.spec.resourceTemplates).toList.map
      (fun r => r.resourceRef.name)
      = binding.spec.resourceTemplates.map (fun t => t.spec.type) := by
    rw [resourceBindings_toList]
    simp [List.map_map, Function.comp_def, eventbinding.resourceBinding]
  have hfilter : ∀ tail : List Call, eventbinding.issued w key = cs ++ tail →
      tail.filter Call.isResourceCreate = [] →
      (eventbinding.issued w key).filter Call.isResourceCreate
          = binding.spec.resourceTemplates.map (fun t => Call.createPipelineResource t.ns t) ∧
      ((eventbinding.issued w key).filter Call.isResourceCreate).length
          = binding.spec.resourceTemplates.length := by
    intro tail hiss ht
    have h : (eventbinding.issued w key).filter Call.isResourceCreate
        = binding.spec.resourceTemplates.map (fun t => Call.createPipelineResource t.ns t) := by
      rw [hiss, List.filter_append, hcreate, ht, List.append_nil]
    exact ⟨h, by rw [h, List.length_map]⟩
  cases hl : lookup binding.ns (binding.name ++ "-listener") w.tektonListeners with
  | none =>
    obtain ⟨_, hpost, hcalls⟩ :=
      reconcile_absent w key ns name binding p hkey hget hname hpipe hfault hnames hl
    have hiss := issued_eq w key _ cs _ hcs hcalls
    obtain ⟨ha, hb⟩ := hfilter _ hiss rfl
    refine ⟨ha, hb, _, _, hpost, hres, hlen, hmap, fun _ => ?_⟩
    rw [hiss]
    simp
  | some l =>
    by_cases hs : l.spec = (eventbinding.newListener binding
        (eventbinding.resourceBindings binding.spec.resourceTemplates)).spec
    · obtain ⟨_, hstore, hcalls⟩ :=
        reconcile_found_same w key ns name binding p l hkey hget hname hpipe hfault hnames
          hl hs
      have hiss := issued_eq w key _ cs _ hcs hcalls
      obtain ⟨ha, hb⟩ := hfilter _ hiss rfl
      refine ⟨ha, hb, l, _, by rw [hstore]; exact hl, by rw [hs]; exact hres, hlen, hmap,
        fun h => ?_⟩
      cases h
    · obtain ⟨_, hstore, hcalls⟩ :=
        reconcile_found_diff w key ns name binding p l hkey hget hname hpipe hfault hnames
          hl hs
      have hiss := issued_eq w key _ cs _ hcs hcalls
      obtain ⟨ha, hb⟩ := hfilter _ hiss rfl
      have hkeyl := lookup_some _ _ l _ hl
      refine ⟨ha, hb,
        { l with spec := (eventbinding.newListener binding
          (eventbinding.resourceBindings binding.spec.resourceTemplates)).spec },
        _, ?_, hres, hlen, hmap, fun h => ?_⟩
      · rw [hstore]
        exact lookup_replace_self binding.ns (binding.name ++ "-listener")
          { l with spec := (eventbinding.newListener binding
            (eventbinding.resourceBindings binding.spec.resourceTemplates)).spec }
          hkeyl _ (by rw [hl]; simp)
      · cases h

/-- Witness of C4 on the cluster `newBindingWorld`. -/
theorem C4_templates_and_listener_created_witness :
    (eventbinding.issued newBindingWorld "ns/b").filter Call.isResourceCreate
        = sampleTemplates.map (fun t => Call.createPipelineResource t.ns t) ∧
    ((eventbinding.issued newBindingWorld "ns/b").filter Call.isResourceCreate).length = 2 ∧
    ∃ (l : TektonListener) (runSpec : PipelineRunSpec),
      lookup "ns" "b-listener" (eventbinding.Reconcile newBindingWorld "ns/b").2.tektonListeners
        = some l ∧
      l.spec.pipelineRunSpec = some runSpec ∧
      runSpec.resources.toList.length = 2 ∧
      runSpec.resources.toList.map (fun r => r.resourceRef.name) = ["git", "image"] ∧
      (lookup "ns" "b-listener" newBindingWorld.tektonListeners = none →
        Call.createTektonListener "ns" l ∈ eventbinding.issued newBindingWorld "ns/b") :=
  C4_templates_and_listener_created newBindingWorld "ns/b" "ns" "b" sampleBinding
    { name := "p", ns := "ns" } rfl rfl (by decide) rfl (fun _ => rfl) (by decide) (by decide)
    (by decide)

theorem filter_listener_parts (cs : List Call) (h : cs.filter Call.isListenerWrite = []) :
    cs.filter Call.isListenerUpdate = [] ∧ cs.filter Call.isListenerCreate = [] := by
  rw [List.filter_eq_nil_iff] at h ⊢
  rw [List.filter_eq_nil_iff]
  constructor
  · intro c hc hu
    apply h c hc
    cases c <;> simp_all [Call.isListenerWrite, Call.isListenerUpdate]
  · intro c hc hu
    apply h c hc
    cases c <;> simp_all [Call.isListenerWrite, Call.isListenerCreate]

/-- C5 as stated fails on the code: in `convergedNoPipelineWorld` the binding is
cached, the store holds every resource template and the listener `b-listener`
whose spec is the projection of the binding, but the pipeline `p` is not in the
pipeline cache: `Reconcile` returns the not-found error of line 122, not nil. -/
theorem C5_counterexample_pipeline_gone :
    eventBindingNamespaceLister.Get convergedNoPipelineWorld.eventBindingIndexer "ns" "b"
      = Except.ok sampleBinding ∧
    lookup "ns" "b-listener" convergedNoPipelineWorld.tektonListeners = some sampleListener ∧
    sampleListener.spec = (eventbinding.newListener sampleBinding
      (eventbinding.resourceBindings sampleBinding.spec.resourceTemplates)).spec ∧
    (∀ t ∈ sampleBinding.spec.resourceTemplates,
      lookup t.ns t.name convergedNoPipelineWorld.pipelineResources ≠ none) ∧
    (eventbinding.Reconcile convergedNoPipelineWorld "ns/b").1
      = Outcome.returned (some (Err.notFound "pipeline" "p")) ∧
    (eventbinding.Reconcile convergedNoPipelineWorld "ns/b").1 ≠ Outcome.returned none :=
  ⟨rfl, by decide, rfl, by decide, by decide, by decide⟩

/-- C5, amended: a cached binding whose pipeline is in the pipeline cache, a store
that holds every resource template, each one addressable by the typed client
(name and namespace not empty and valid path segments), and the listener `"<binding.Name>-listener"` with a spec deeply equal to the projection of
the binding (as `reflect.DeepEqual` compares: a nil slice is not an empty slice),
and a client whose calls reach the store.  Then `Reconcile` returns nil and issues
no `Create` and no `Update`, on the listener or on anything else. -/
theorem C5_converged_is_noop (w : World) (key ns name : String)
    (binding : EventBinding) (p : PipelineDef) (l : TektonListener)
    (hkey : SplitMetaNamespaceKey key = Except.ok (ns, name))
    (hget : eventBindingNamespaceLister.Get w.eventBindingIndexer ns name = Except.ok binding)
    (hpipe : pipelineNamespaceLister.Get w.pipelineIndexer ns binding.spec.pipelineRef.name
      = Except.ok p)
    (hfault : ∀ c, w.fault c = none)
    (haddr : ∀ t ∈ binding.spec.resourceTemplates, addressable t = true)
    (hall : ∀ t ∈ binding.spec.resourceTemplates,
      lookup t.ns t.name w.pipelineResources ≠ none)
    (hl : lookup binding.ns (binding.name ++ "-listener") w.tektonListeners = some l)
    (hspec : l.spec = (eventbinding.newListener binding
      (eventbinding.resourceBindings binding.spec.resourceTemplates)).spec) :
    (eventbinding.Reconcile w key).1 = Outcome.returned none ∧
    (eventbinding.issued w key).filter Call.isListenerWrite = [] ∧
    (eventbinding.issued w key).filter Call.isWrite = [] := by
  have hnames := addressable_name binding.spec.resourceTemplates haddr
  by_cases hname : binding.spec.pipelineRef.name = ""
  · have h : eventbinding.Reconcile w key = (Outcome.returned none, w) := by
      simp [eventbinding.Reconcile, hkey, hget, hname]
    simp [eventbinding.issued, h]
  · obtain ⟨hout, _, hcalls⟩ :=
      reconcile_found_same w key ns name binding p l hkey hget hname hpipe hfault hnames
        hl hspec
    obtain ⟨cs, hcs, hw⟩ :=
      loop_present binding.spec.resourceTemplates Slice.nil w hfault hnames hall
    obtain ⟨_, _, _, ds, hds, hlw⟩ := loop_frame binding.spec.resourceTemplates Slice.nil w
    have hcd : cs = ds := List.append_cancel_left (hcs.symm.trans hds)
    have hiss := issued_eq w key _ cs _ hcs hcalls
    refine ⟨hout, ?_, ?_⟩
    · rw [hiss, List.filter_append, hcd, hlw]; rfl
    · rw [hiss, List.filter_append, hw]; rfl

/-- Witness of C5 on the cluster `convergedWorld`. -/
theorem C5_converged_is_noop_witness :
    (eventbinding.Reconcile convergedWorld "ns/b").1 = Outcome.returned none ∧
    (eventbinding.issued convergedWorld "ns/b").filter Call.isListenerWrite = [] ∧
    (eventbinding.issued convergedWorld "ns/b").filter Call.isWrite = [] :=
  C5_converged_is_noop convergedWorld "ns/b" "ns" "b" sampleBinding { name := "p", ns := "ns" }
    sampleListener rfl rfl rfl (fun _ => rfl) (by decide) (by decide) (by decide) rfl

/-- C6 as stated fails on the code: in `paramsChangedNoPipelineWorld` the store
holds the listener derived from the binding, the params of the cached binding have
changed since, but the pipeline `p` is not in the pipeline cache: `Reconcile`
returns at line 122 and issues no `Update`. -/
theorem C6_counterexample_pipeline_gone :
    eventBindingNamespaceLister.Get paramsChangedNoPipelineWorld.eventBindingIndexer "ns" "b"
      = Except.ok changedBinding ∧
    changedBinding.spec
      = { sampleBinding.spec with
          params := Slice.of [{ name := "revision", value := "release" }] } ∧
    changedBinding.spec.params ≠ sampleBinding.spec.params ∧
    lookup "ns" "b-listener" paramsChangedNoPipelineWorld.tektonListeners
      = some (eventbinding.newListener sampleBinding
          (eventbinding.resourceBindings sampleBinding.spec.resourceTemplates)) ∧
    (eventbinding.issued paramsChangedNoPipelineWorld "ns/b").filter Call.isListenerUpdate
      = [] :=
  ⟨rfl, rfl, by decide, by decide, by decide⟩

/-- C6, amended: a cached binding whose `PipelineRef.Name` is not empty and names a
cached pipeline, whose resource templates the typed client can address (name and
namespace not empty and valid path segments), a store that holds the listener `"<binding.Name>-listener"` with the spec derived from the binding when
its params were `oldParams`, params that differ from `oldParams` now (as
`reflect.DeepEqual` compares), and a client whose calls reach the store.  Then
`Reconcile` issues exactly one `Update` of a listener, the listener
`"<binding.Name>-listener"` of the binding's namespace with the new params in its
`PipelineRunSpec`, issues no `Create` of a listener, and returns nil. -/
theorem C6_changed_params_one_update (w : World) (key ns name : String)
    (binding : EventBinding) (p : PipelineDef) (l : TektonListener) (oldParams : Slice Param)
    (hkey : SplitMetaNamespaceKey key = Except.ok (ns, name))
    (hget : eventBindingNamespaceLister.Get w.eventBindingIndexer ns name = Except.ok binding)
    (hname : binding.spec.pipelineRef.name ≠ "")
    (hpipe : pipelineNamespaceLister.Get w.pipelineIndexer ns binding.spec.pipelineRef.name
      = Except.ok p)
    (hfault : ∀ c, w.fault c = none)
    (haddr : ∀ t ∈ binding.spec.resourceTemplates, addressable t = true)
    (hl : lookup binding.ns (binding.name ++ "-listener") w.tektonListeners = some l)
    (hderived : l.spec = (eventbinding.newListener
      { binding with spec := { binding.spec with params := oldParams } }
      (eventbinding.resourceBindings binding.spec.resourceTemplates)).spec)
    (hchanged : binding.spec.params ≠ oldParams) :
    ∃ (updated : TektonListener) (runSpec : PipelineRunSpec),
      (eventbinding.issued w key).filter Call.isListenerUpdate
        = [Call.updateTektonListener binding.ns updated] ∧
      (eventbinding.issued w key).filter Call.isListenerCreate = [] ∧
      updated.name = binding.name ++ "-listener" ∧ updated.ns = binding.ns ∧
      updated.spec.pipelineRunSpec = some runSpec ∧
      runSpec.params = binding.spec.params ∧
      (eventbinding.Reconcile w key).1 = Outcome.returned none := by
  have hnames := addressable_name binding.spec.resourceTemplates haddr
  have hs : l.spec ≠ (eventbinding.newListener binding
      (eventbinding.resourceBindings binding.spec.resourceTemplates)).spec := by
    intro h
    rw [hderived] at h
    have h1 := congrArg TektonListenerSpec.pipelineRunSpec h
    simp [eventbinding.newListener] at h1
    exact hchanged h1.symm
  obtain ⟨hout, _, hcalls⟩ :=
    reconcile_found_diff w key ns name binding p l hkey hget hname hpipe hfault hnames hl hs
  obtain ⟨_, _, _, cs, hcs, hlw⟩ := loop_frame binding.spec.resourceTemplates Slice.nil w
  obtain ⟨hu, hc⟩ := filter_listener_parts cs hlw
  have hiss := issued_eq w key _ cs _ hcs hcalls
  have hkeyl := lookup_some _ _ l _ hl
  refine ⟨{ l with spec := (eventbinding.newListener binding
      (eventbinding.resourceBindings binding.spec.resourceTemplates)).spec }, _,
    ?_, ?_, hkeyl.2, hkeyl.1, rfl, rfl, hout⟩
  · rw [hiss, List.filter_append, hu]; rfl
  · rw [hiss, List.filter_append, hc]; rfl

/-- Witness of C6 on the cluster `paramsChangedWorld`. -/
theorem C6_changed_params_one_update_witness :
    ∃ (updated : TektonListener) (runSpec : PipelineRunSpec),
      (eventbinding.issued paramsChangedWorld "ns/b").filter Call.isListenerUpdate
        = [Call.updateTektonListener "ns" updated] ∧
      (eventbinding.issued paramsChangedWorld "ns/b").filter Call.isListenerCreate = [] ∧
      updated.name = "b-listener" ∧ updated.ns = "ns" ∧
      updated.spec.pipelineRunSpec = some runSpec ∧
      runSpec.params = Slice.of [{ name := "revision", value := "release" }] ∧
      (eventbinding.Reconcile paramsChangedWorld "ns/b").1 = Outcome.returned none :=
  C6_changed_params_one_update paramsChangedWorld "ns/b" "ns" "b" changedBinding
    { name := "p", ns := "ns" } sampleListener
    (Slice.of [{ name := "revision", value := "master" }])
    rfl rfl (by decide) rfl (fun _ => rfl) (by decide) (by decide) rfl (by decide)

/-- A template without name: the typed client refuses the `Get`, `Reconcile`
returns that error and nothing is created. -/
theorem unnamed_template_ends_run :
    (eventbinding.Reconcile unnamedTemplateWorld "ns/b").1
      = Outcome.returned (some (Err.other "resource name may not be empty")) ∧
    eventbinding.issued unnamedTemplateWorld "ns/b" = [Call.getPipelineResource "ns" ""] := by
  decide

/-- A stored listener with nil `Params` against a binding with empty `Params`:
`reflect.DeepEqual` tells them apart and `Reconcile` issues an `Update`. -/
theorem nil_params_against_empty_params_updates :
    ((eventbinding.issued nilParamsListenerWorld "ns/b").filter Call.isListenerUpdate).length
      = 1 := by
  decide

/-! ## The cache lookup of the reconciled object -/

/-- C12: in both reconcilers the not-found of the reconciled object is swallowed.
The lister's `Get` returns the error of a failing indexer lookup as it is, and
when the lookup does not fail it returns a not-found error exactly when the
indexer has no entry under `"<namespace>/<name>"`.  When `Get` reports not-found,
`Reconcile` returns nil and leaves the world as it was, with no client call; when
`Get` fails with any other error, `Reconcile` returns that error unchanged, again
with no client call. -/
theorem C12_cache_not_found_swallowed (w : World) (key ns name : String)
    (hkey : SplitMetaNamespaceKey key = Except.ok (ns, name)) :
    (∀ (indexer : Indexer EventBinding) (e : Err),
      indexer.failure (ns ++ "/" ++ name) = some e →
        eventBindingNamespaceLister.Get indexer ns name = Except.error e) ∧
    (∀ indexer : Indexer EventBinding, indexer.failure (ns ++ "/" ++ name) = none →
      ((∃ e, eventBindingNamespaceLister.Get indexer ns name = Except.error e ∧
          IsNotFound (some e) = true)
        ↔ lookupKey (ns ++ "/" ++ name) indexer.items = none)) ∧
    (∀ e, eventBindingNamespaceLister.Get w.eventBindingIndexer ns name = Except.error e →
      IsNotFound (some e) = true →
        eventbinding.Reconcile w key = (Outcome.returned none, w) ∧
        eventbinding.issued w key = []) ∧
    (∀ e, eventBindingNamespaceLister.Get w.eventBindingIndexer ns name = Except.error e →
      IsNotFound (some e) = false →
        eventbinding.Reconcile w key = (Outcome.returned (some e), w) ∧
        eventbinding.issued w key = []) ∧
    (∀ e, tektonListenerNamespaceLister.Get w.tektonListenerIndexer ns name = Except.error e →
      IsNotFound (some e) = true →
        (tektonlistener.Reconcile w key).outcome = Outcome.returned none ∧
        (tektonlistener.Reconcile w key).world = w ∧
        tektonlistener.issued w key = []) ∧
    (∀ e, tektonListenerNamespaceLister.Get w.tektonListenerIndexer ns name = Except.error e →
      IsNotFound (some e) = false →
        (tektonlistener.Reconcile w key).outcome = Outcome.returned (some e) ∧
        (tektonlistener.Reconcile w key).world = w ∧
        tektonlistener.issued w key = []) := by
  refine ⟨?_, ?_, ?_, ?_, ?_, ?_⟩
  · intro indexer e hf
    simp [eventBindingNamespaceLister.Get, Indexer.GetByKey, hf]
  · intro indexer hf
    cases hl : lookupKey (ns ++ "/" ++ name) indexer.items with
    | none => simp [eventBindingNamespaceLister.Get, Indexer.GetByKey, hf, hl, IsNotFound]
    | some obj => simp [eventBindingNamespaceLister.Get, Indexer.GetByKey, hf, hl]
  · intro e hget hnf
    have h : eventbinding.Reconcile w key = (Outcome.returned none, w) := by
      simp [eventbinding.Reconcile, hkey, hget, hnf]
    exact ⟨h, by simp [eventbinding.issued, h]⟩
  · intro e hget hnf
    have h : eventbinding.Reconcile w key = (Outcome.returned (some e), w) := by
      simp [eventbinding.Reconcile, hkey, hget, hnf]
    exact ⟨h, by simp [eventbinding.issued, h]⟩
  · intro e hget hnf
    simp [tektonlistener.issued, tektonlistener.Reconcile, hkey, hget, hnf]
  · intro e hget hnf
    simp [tektonlistener.issued, tektonlistener.Reconcile, hkey, hget, hnf]

/-- Witness of C12: nothing cached under `ns/b` in `emptyWorld`, and a cache whose
lookups fail in `brokenCacheWorld`. -/
theorem C12_cache_not_found_swallowed_witness :
    (eventbinding.Reconcile emptyWorld "ns/b" = (Outcome.returned none, emptyWorld) ∧
      eventbinding.issued emptyWorld "ns/b" = []) ∧
    ((tektonlistener.Reconcile emptyWorld "ns/b").outcome = Outcome.returned none ∧
      (tektonlistener.Reconcile emptyWorld "ns/b").world = emptyWorld ∧
      tektonlistener.issued emptyWorld "ns/b" = []) ∧
    (eventbinding.Reconcile brokenCacheWorld "ns/b"
        = (Outcome.returned (some (Err.other "cache unavailable")), brokenCacheWorld) ∧
      eventbinding.issued brokenCacheWorld "ns/b" = []) ∧
    ((tektonlistener.Reconcile brokenCacheWorld "ns/b").outcome
        = Outcome.returned (some (Err.other "cache unavailable")) ∧
      (tektonlistener.Reconcile brokenCacheWorld "ns/b").world = brokenCacheWorld ∧
      tektonlistener.issued brokenCacheWorld "ns/b" = []) :=
  ⟨(C12_cache_not_found_swallowed emptyWorld "ns/b" "ns" "b" rfl).2.2.1
      (Err.notFound "eventbinding" "b") rfl rfl,
    (C12_cache_not_found_swallowed emptyWorld "ns/b" "ns" "b" rfl).2.2.2.2.1
      (Err.notFound "tektonlistener" "b") rfl rfl,
    (C12_cache_not_found_swallowed brokenCacheWorld "ns/b" "ns" "b" rfl).2.2.2.1
      (Err.other "cache unavailable") rfl rfl,
    (C12_cache_not_found_swallowed brokenCacheWorld "ns/b" "ns" "b" rfl).2.2.2.2.2
      (Err.other "cache unavailable") rfl rfl⟩

/-! ## The cached binding -/

/-- C14, evaluated on the code: in `convergedWorld` the binding `ns/b` is cached
with an empty status.  `Reconcile` returns nil and the entry cached under `ns/b` is
no longer the one it was: its status now names the listener `b-listener` of `ns`.
The status is assigned through the pointer that the lister handed out (line 206),
with no `DeepCopy` in between. -/
theorem C14_cached_binding_mutated :
    lookupKey "ns/b" convergedWorld.eventBindingIndexer.items = some sampleBinding ∧
    (eventbinding.Reconcile convergedWorld "ns/b").1 = Outcome.returned none ∧
    lookupKey "ns/b" (eventbinding.Reconcile convergedWorld "ns/b").2.eventBindingIndexer.items
      = some { sampleBinding with status := { listenerName := "b-listener", ns := "ns" } } ∧
    lookupKey "ns/b" (eventbinding.Reconcile convergedWorld "ns/b").2.eventBindingIndexer.items
      ≠ lookupKey "ns/b" convergedWorld.eventBindingIndexer.items := by
  decide


/-! ## A failing fetch of the child object -/

/-- The binding reconciler when the fetch of its listener fails with an error that
is not a not-found: no `Create` or `Update` of a listener is issued, the listeners
of the store and the cached bindings are left alone, and when the loop over the
resource templates has run to its end, `Reconcile` returns the error of the fetch
right after that `Get`. -/
theorem binding_fetch_error (w : World) (key ns name : String) (binding : EventBinding)
    (p : PipelineDef) (e : Err)
    (hkey : SplitMetaNamespaceKey key = Except.ok (ns, name))
    (hget : eventBindingNamespaceLister.Get w.eventBindingIndexer ns name = Except.ok binding)
    (hname : binding.spec.pipelineRef.name ≠ "")
    (hpipe : pipelineNamespaceLister.Get w.pipelineIndexer ns binding.spec.pipelineRef.name
      = Except.ok p)
    (hfetch : w.fault (Call.getTektonListener binding.ns (binding.name ++ "-listener"))
      = some e)
    (hother : IsNotFound (some e) = false) :
    (eventbinding.issued w key).filter Call.isListenerWrite = [] ∧
    (eventbinding.Reconcile w key).2.tektonListeners = w.tektonListeners ∧
    (eventbinding.Reconcile w key).2.eventBindingIndexer = w.eventBindingIndexer ∧
    (∀ prbs, (eventbinding.createResourceTemplates binding.spec.resourceTemplates Slice.nil w).1
        = Except.ok prbs →
      (eventbinding.Reconcile w key).1 = Outcome.returned (some e) ∧
      (eventbinding.issued w key).getLast?
        = some (Call.getTektonListener binding.ns (binding.name ++ "-listener"))) := by
  obtain ⟨h1, h2, h3, cs, h4, h5⟩ := loop_frame binding.spec.resourceTemplates Slice.nil w
  have hrec : eventbinding.Reconcile w key =
      (match eventbinding.createResourceTemplates binding.spec.resourceTemplates Slice.nil w with
        | (Except.error err, w1) => (Outcome.returned (some err), w1)
        | (Except.ok prbs, w1) =>
          (Outcome.returned (some e),
            { w1 with calls := w1.calls
                ++ [Call.getTektonListener binding.ns (binding.name ++ "-listener")] })) := by
    simp only [eventbinding.Reconcile, hkey, hget, hname, hpipe, if_false]
    rcases hc : eventbinding.createResourceTemplates binding.spec.resourceTemplates Slice.nil w
      with ⟨r, w1⟩
    rw [hc] at h3
    cases r with
    | error err => rfl
    | ok prbs =>
      have hf : w1.fault (Call.getTektonListener binding.ns (binding.name ++ "-listener"))
          = some e := by
        have h3' : w1.fault = w.fault := h3
        rw [h3']; exact hfetch
      have hn : (eventbinding.newListener binding prbs).name = binding.name ++ "-listener" :=
        rfl
      simp [World.getTektonListener, hn,
        refuseEmptyName_of_ne _ (listener_name_ne_empty binding.name), hf, hother]
  rcases hc : eventbinding.createResourceTemplates binding.spec.resourceTemplates Slice.nil w
    with ⟨r, w1⟩
  rw [hc] at h1 h2 h4
  simp only at h1 h2 h4
  unfold eventbinding.issued
  rw [hrec, hc]
  cases r with
  | error err =>
    refine ⟨?_, h2, h1, ?_⟩
    · simp only [h4]
      simpa using h5
    · intro prbs h
      cases h
  | ok prbs =>
    refine ⟨?_, h2, h1, ?_⟩
    · simp only [h4]
      simp [List.filter_append, h5, Call.isListenerWrite]
    · intro _ _
      refine ⟨rfl, ?_⟩
      simp only [h4]
      simp

/-- The listener reconciler when the fetch of its workload fails with an error that
is not a not-found: `Reconcile` returns that error, the `Get` is the only call it
issues, and the workloads of the store and the status of its copy of the listener
are left alone. -/
theorem listener_fetch_error (w : World) (key ns name : String) (pl : TektonListener)
    (runSpec : PipelineRunSpec) (e : Err)
    (hkey : SplitMetaNamespaceKey key = Except.ok (ns, name))
    (hget : tektonListenerNamespaceLister.Get w.tektonListenerIndexer ns name = Except.ok pl)
    (hrun : pl.spec.pipelineRunSpec = some runSpec)
    (hfetch : w.fault (Call.getStatefulSet pl.ns (pl.name ++ "-statefulset")) = some e)
    (hother : IsNotFound (some e) = false) :
    (tektonlistener.Reconcile w key).outcome = Outcome.returned (some e) ∧
    tektonlistener.issued w key = [Call.getStatefulSet pl.ns (pl.name ++ "-statefulset")] ∧
    (tektonlistener.Reconcile w key).world.statefulSets = w.statefulSets ∧
    (tektonlistener.Reconcile w key).pl = some pl := by
  simp [tektonlistener.issued, tektonlistener.Reconcile, hkey, hget, eqNewLiteral, hrun,
    World.getStatefulSet, refuseEmptyName_of_ne _ (statefulset_name_ne_empty pl.name),
    hfetch, hother]

/-- C13: in both reconcilers, a fetch of the child object that fails with an error
other than not-found ends the run.  The binding reconciler issues no `Create` and no
`Update` of a listener, and returns the error of the fetch right after the `Get`
once the loop over the resource templates has run to its end; the listener
reconciler returns the error of the fetch and issues no call but the `Get`.
Neither goes on to the statements that read the fetched object: the store and the
status are as they were. -/
theorem C13_fetch_error_ends_run (w : World) (key ns name : String) (binding : EventBinding)
    (p : PipelineDef) (e : Err)
    (hkey : SplitMetaNamespaceKey key = Except.ok (ns, name))
    (hget : eventBindingNamespaceLister.Get w.eventBindingIndexer ns name = Except.ok binding)
    (hname : binding.spec.pipelineRef.name ≠ "")
    (hpipe : pipelineNamespaceLister.Get w.pipelineIndexer ns binding.spec.pipelineRef.name
      = Except.ok p)
    (hfetch : w.fault (Call.getTektonListener binding.ns (binding.name ++ "-listener"))
      = some e)
    (hother : IsNotFound (some e) = false)
    (v : World) (vkey vns vname : String) (pl : TektonListener) (runSpec : PipelineRunSpec)
    (ve : Err)
    (hvkey : SplitMetaNamespaceKey vkey = Except.ok (vns, vname))
    (hvget : tektonListenerNamespaceLister.Get v.tektonListenerIndexer vns vname
      = Except.ok pl)
    (hvrun : pl.spec.pipelineRunSpec = some runSpec)
    (hvfetch : v.fault (Call.getStatefulSet pl.ns (pl.name ++ "-statefulset")) = some ve)
    (hvother : IsNotFound (some ve) = false) :
    ((eventbinding.issued w key).filter Call.isListenerWrite = [] ∧
      (eventbinding.Reconcile w key).2.tektonListeners = w.tektonListeners ∧
      (eventbinding.Reconcile w key).2.eventBindingIndexer = w.eventBindingIndexer ∧
      (∀ prbs, (eventbinding.createResourceTemplates binding.spec.resourceTemplates Slice.nil w).1
          = Except.ok prbs →
        (eventbinding.Reconcile w key).1 = Outcome.returned (some e) ∧
        (eventbinding.issued w key).getLast?
          = some (Call.getTektonListener binding.ns (binding.name ++ "-listener")))) ∧
    ((tektonlistener.Reconcile v vkey).outcome = Outcome.returned (some ve) ∧
      tektonlistener.issued v vkey
        = [Call.getStatefulSet pl.ns (pl.name ++ "-statefulset")] ∧
      (tektonlistener.issued v vkey).filter Call.isStatefulSetWrite = [] ∧
      (tektonlistener.Reconcile v vkey).world.statefulSets = v.statefulSets ∧
      (tektonlistener.Reconcile v vkey).pl = some pl) := by
  obtain ⟨k1, k2, k3, k4⟩ :=
    listener_fetch_error v vkey vns vname pl runSpec ve hvkey hvget hvrun hvfetch hvother
  exact ⟨binding_fetch_error w key ns name binding p e hkey hget hname hpipe hfetch hother,
    k1, k2, by rw [k2]; rfl, k3, k4⟩

/-- Witness of C13 on the clusters `listenerFetchFailsWorld` and
`workloadFetchFailsWorld`. -/
theorem C13_fetch_error_ends_run_witness :
    ((eventbinding.Reconcile listenerFetchFailsWorld "ns/b").1
        = Outcome.returned (some (Err.other "server unavailable")) ∧
      (eventbinding.issued listenerFetchFailsWorld "ns/b").filter Call.isListenerWrite = []) ∧
    ((tektonlistener.Reconcile workloadFetchFailsWorld "ns/x").outcome
        = Outcome.returned (some (Err.other "server unavailable")) ∧
      tektonlistener.issued workloadFetchFailsWorld "ns/x"
        = [Call.getStatefulSet "ns" "x-statefulset"]) :=
  have h := C13_fetch_error_ends_run listenerFetchFailsWorld "ns/b" "ns" "b" sampleBinding
    { name := "p", ns := "ns" } (Err.other "server unavailable") rfl rfl (by decide) rfl rfl rfl
    workloadFetchFailsWorld "ns/x" "ns" "x" readyListener
    { pipelineRef := { name := "p" }, serviceAccount := "robot" }
    (Err.other "server unavailable") rfl rfl rfl rfl rfl
  ⟨⟨(h.1.2.2.2 (eventbinding.resourceBindings sampleTemplates) rfl).1, h.1.1⟩,
    h.2.1, h.2.2.1⟩

/-! ## The environment of the workload -/

theorem decodeChar_encodeChar_lt : ∀ v, v < 64 → decodeChar (encodeChar v) = some v := by
  decide

theorem decodeChar_encodeChar (v : Nat) : decodeChar (encodeChar v) = some (v % 64) := by
  have h : encodeChar v = encodeChar (v % 64) := by
    simp [encodeChar]
  rw [h]
  exact decodeChar_encodeChar_lt (v % 64) (Nat.mod_lt _ (by decide))

theorem encodeChar_ne_pad (v : Nat) : encodeChar v ≠ '=' := by
  intro h
  have h1 := decodeChar_encodeChar v
  rw [h] at h1
  have h2 : decodeChar '=' = none := by decide
  rw [h2] at h1
  cases h1

/-- Decoding undoes encoding, for every sequence of bytes. -/
theorem decodeChars_encodeBytes (bytes : List Nat) :
    (∀ b ∈ bytes, b < 256) → decodeChars (encodeBytes bytes) = some bytes := by
  induction bytes using encodeBytes.induct with
  | case1 => intro _; rfl
  | case2 a =>
    intro h
    have ha : a < 256 := h a (by simp)
    simp only [encodeBytes, decodeChars, decodeChar_encodeChar, if_true]
    simp
    omega
  | case3 a b =>
    intro h
    have ha : a < 256 := h a (by simp)
    have hb : b < 256 := h b (by simp)
    simp only [encodeBytes, decodeChars, decodeChar_encodeChar, if_true, encodeChar_ne_pad,
      if_false]
    simp
    omega
  | case4 a b c rest ih =>
    intro h
    have ha : a < 256 := h a (by simp)
    have hb : b < 256 := h b (by simp)
    have hc : c < 256 := h c (by simp)
    have hrest := ih (fun x hx => h x (by simp [hx]))
    simp only [encodeBytes, decodeChars, decodeChar_encodeChar, encodeChar_ne_pad, if_false,
      hrest]
    simp
    omega

theorem utf8Char_lt (c : Char) : ∀ b ∈ utf8Char c, b < 256 := by
  have hv : c.toNat < 1114112 := by
    rcases c.valid with h | h
    · exact Nat.lt_trans h (by decide)
    · exact h.2
  intro b hb
  unfold utf8Char at hb
  simp only at hb
  split at hb
  · simp at hb; omega
  · split at hb
    · simp at hb; omega
    · split at hb
      · simp at hb; omega
      · simp at hb; omega

theorem bytesOf_lt (s : String) : ∀ b ∈ bytesOf s, b < 256 := by
  intro b hb
  unfold bytesOf at hb
  rw [List.mem_flatMap] at hb
  obtain ⟨c, _, hc⟩ := hb
  exact utf8Char_lt c b hc

/-- Base64-decoding the encoding of a string yields the bytes of the string. -/
theorem DecodeString_EncodeToString (s : String) :
    DecodeString (EncodeToString s) = some (bytesOf s) := by
  unfold DecodeString EncodeToString
  exact decodeChars_encodeBytes (bytesOf s) (bytesOf_lt s)

/-- The environment of the container, for every listener: five variables in the
order `EVENT_TYPE`, `EVENT`, `NAMESPACE`, `LISTENER_RESOURCE`, `PORT`; the first
four values decode to the bytes of `Spec.EventType`, `Spec.Event`,
`Spec.Namespace` and the name; the fifth is the conversion `string(pl.Spec.Port)`. -/
theorem containerEnv_values (pl : TektonListener) :
    ∃ v0 v1 v2 v3 : String,
      tektonlistener.containerEnv pl
        = [ { name := "EVENT_TYPE", value := v0 },
            { name := "EVENT", value := v1 },
            { name := "NAMESPACE", value := v2 },
            { name := "LISTENER_RESOURCE", value := v3 },
            { name := "PORT", value := stringOfInt pl.spec.port } ] ∧
      DecodeString v0 = some (bytesOf pl.spec.eventType) ∧
      DecodeString v1 = some (bytesOf pl.spec.event) ∧
      DecodeString v2 = some (bytesOf pl.spec.ns) ∧
      DecodeString v3 = some (bytesOf pl.name) :=
  ⟨_, _, _, _, rfl, DecodeString_EncodeToString _, DecodeString_EncodeToString _,
    DecodeString_EncodeToString _, DecodeString_EncodeToString _⟩

/-- C11, evaluated on the code: the listener `ns/x` is cached with `Port` 8082 and
`Reconcile` creates its workload.  The container has the five variables in the
order of the claim and the first four values are the base64 texts of the event
type, the event, the namespace and the name, but the value of `PORT` is
`string(8082)`, the one character with code point 8082, and not the text `8082`
of the port. -/
theorem C11_port_value_is_code_point :
    portListener.spec.port = 8082 ∧
    Call.createStatefulSet "ns"
        (tektonlistener.statefulSet "override:latest" portListener
          { pipelineRef := { name := "p" }, serviceAccount := "robot" })
      ∈ tektonlistener.issued portListenerWorld "ns/x" ∧
    tektonlistener.containerEnv portListener
      = [ { name := "EVENT_TYPE", value := "Z2l0aHVi" },
          { name := "EVENT", value := "cHVzaA==" },
          { name := "NAMESPACE", value := "bnM=" },
          { name := "LISTENER_RESOURCE", value := "eA==" },
          { name := "PORT", value := String.singleton (Char.ofNat 8082) } ] ∧
    String.singleton (Char.ofNat 8082) ≠ "8082" := by
  decide

end Pipeline
